import Mathlib

/-!
Shallow embedding of the rlox interpreter (a single-pass Lox bytecode
compiler and stack virtual machine written in Rust) and proofs about it.

Source files embedded: `src/bytecode.rs`, `src/token.rs`, `src/scanner.rs`,
`src/compiler.rs`, `src/vm.rs`, and the `interpret` driver of `src/lib.rs`.

Modelling conventions:
* Rust `u16` / `u8` / `usize` values are `Nat` with explicit `% 65536` /
  `% 256` where the source casts (`as u16`) can wrap.
* Rust `f64` is modelled by `F64` below: an exact rational extended with
  signed infinities and NaN.  Arithmetic on finite values is exact (no
  rounding is modelled); this agrees with IEEE-754 on every computation the
  theorems below evaluate, since those stay within exactly representable
  integers.  Division by zero and NaN propagation follow IEEE-754.
  The negative zero of IEEE-754 is not modelled (no theorem depends on it).
* Fallible Rust code (`Result`) becomes `Except`; Rust panics
  (`unwrap`, `unreachable!`, `internal_error`) become a distinguished
  `panicked` error variant (a panic aborts the process, a returned error
  unwinds), or `Option.none` where noted.
* Unbounded `loop`/`while` constructs take an explicit fuel argument;
  exhausted fuel is a distinguished result.  All other functions are
  translated structurally.
* `stdout` is modelled as an accumulated `String`; `writeln!` appends the
  displayed value followed by `"\n"`.
-/

namespace RLox

/-- Model of Rust `f64`: exact rationals plus signed infinity and NaN.
`inf false` is `+∞`, `inf true` is `-∞`. -/
inductive F64 where
  | finite (q : ℚ)
  | inf (neg : Bool)
  | nan
deriving DecidableEq

namespace F64

/-- IEEE-754 addition on the model (exact on finite values). -/
def add : F64 → F64 → F64
  | nan, _ => nan
  | _, nan => nan
  | finite a, finite b => finite (a + b)
  | inf s, finite _ => inf s
  | finite _, inf s => inf s
  | inf s, inf t => if s = t then inf s else nan

/-- IEEE-754 subtraction on the model (exact on finite values). -/
def sub : F64 → F64 → F64
  | nan, _ => nan
  | _, nan => nan
  | finite a, finite b => finite (a - b)
  | inf s, finite _ => inf s
  | finite _, inf s => inf (!s)
  | inf s, inf t => if s = t then nan else inf s

/-- IEEE-754 multiplication on the model (exact on finite values). -/
def mul : F64 → F64 → F64
  | nan, _ => nan
  | _, nan => nan
  | finite a, finite b => finite (a * b)
  | inf s, finite b => if b = 0 then nan else inf (xor s (decide (b < 0)))
  | finite a, inf s => if a = 0 then nan else inf (xor s (decide (a < 0)))
  | inf s, inf t => inf (xor s t)

/-- IEEE-754 division on the model: a nonzero finite value divided by zero
gives a signed infinity, `0/0` gives NaN, finite division is exact. -/
def div : F64 → F64 → F64
  | nan, _ => nan
  | _, nan => nan
  | finite a, finite b =>
      if b = 0 then (if a = 0 then nan else inf (decide (a < 0)))
      else finite (a / b)
  | finite _, inf _ => finite 0
  | inf s, finite b => inf (xor s (decide (b < 0)))
  | inf _, inf _ => nan

/-- IEEE-754 negation on the model. -/
def neg : F64 → F64
  | finite a => finite (-a)
  | inf s => inf (!s)
  | nan => nan

/-- IEEE-754 equality (Rust `==` on `f64`): NaN compares unequal to
everything, including itself. -/
def beq : F64 → F64 → Bool
  | finite a, finite b => a == b
  | inf s, inf t => s == t
  | _, _ => false

/-- IEEE-754 strict less-than (Rust `<` on `f64`): false whenever NaN is
involved. -/
def blt : F64 → F64 → Bool
  | finite a, finite b => a < b
  | finite _, inf s => !s
  | inf s, finite _ => s
  | inf s, inf t => s && !t
  | _, _ => false

/-- IEEE-754 strict greater-than (Rust `>` on `f64`). -/
def bgt (a b : F64) : Bool := blt b a

/-- Rust `Display` for `f64`, restricted to the values the claims print:
an integral finite value prints without a decimal point (`7.0` → `"7"`),
exactly as Rust's shortest-representation formatting does.  Non-integral
finite values are rendered as `num/den` here, an approximation of Rust's
decimal output that no theorem below relies on. -/
def display : F64 → String
  | finite q => if q.den = 1 then toString q.num
      else toString q.num ++ "/" ++ toString q.den
  | inf s => if s then "-inf" else "inf"
  | nan => "NaN"

end F64

/-- `Value` from `src/bytecode.rs`: the tagged runtime value.  Rust's
`Rc<String>` is shared-ownership; sharing is unobservable (strings are
immutable and `Rc<String> == Rc<String>` compares contents), so it is
modelled as a plain `String`. -/
inductive Value where
  | number (n : F64)
  | string (s : String)
  | function (id : Nat)
  | boolean (b : Bool)
  | nil
deriving DecidableEq

namespace Value

/-- `impl PartialEq for Value` from `src/bytecode.rs`: same-variant
payload equality, every cross-variant pair unequal.  Numbers compare with
IEEE-754 `==` (so NaN is unequal to itself), strings by contents, functions
by id. -/
def valueEq : Value → Value → Bool
  | number a, number b => F64.beq a b
  | boolean a, boolean b => a == b
  | string a, string b => a == b
  | nil, nil => true
  | function a, function b => a == b
  | _, _ => false

/-- `Value::is_truthy` from `src/bytecode.rs`. -/
def isTruthy : Value → Bool
  | nil => false
  | boolean b => b
  | _ => true

/-- `impl Display for Value` from `src/bytecode.rs`. -/
def display : Value → String
  | number n => n.display
  | string s => s
  | boolean b => if b then "true" else "false"
  | nil => "<Nil>"
  | function id => "#" ++ toString id

/-- Discriminant of a `Value` (which variant it is), used to state
"values of different variants compare unequal". -/
def tag : Value → Nat
  | number _ => 0
  | string _ => 1
  | function _ => 2
  | boolean _ => 3
  | nil => 4

end Value

/-- `OpCode` from `src/bytecode.rs`.  `u16` operands are `Nat`; the
forward-jump operand is `Option Nat` exactly as in the source
(`None` = not yet patched).  `ret` is the source's `Return`. -/
inductive OpCode where
  | constant (index : Nat)
  | ret
  | print
  | pop
  | defineGlobal (index : Nat)
  | getGlobal (index : Nat)
  | setGlobal (index : Nat)
  | getLocal (offset : Nat)
  | setLocal (offset : Nat)
  | jumpIfFalse (offset : Option Nat)
  | jump (offset : Option Nat)
  | loop (offset : Nat)
  | call (argCount : Nat)
  | negate
  | not
  | add
  | subtract
  | multiply
  | divide
  | less
  | greater
  | equal
  | true
  | false
  | nil
deriving DecidableEq

/-- `Chunk` from `src/bytecode.rs`: parallel instruction, constant and
line sequences. -/
structure Chunk where
  code : List OpCode
  constants : List Value
  lines : List Nat
deriving DecidableEq

namespace Chunk

/-- `Chunk::new`. -/
def new : Chunk := ⟨[], [], []⟩

/-- `Chunk::write_ins`: append one opcode and its line. -/
def writeIns (c : Chunk) (byte : OpCode) (line : Nat) : Chunk :=
  { c with lines := c.lines ++ [line], code := c.code ++ [byte] }

/-- `Chunk::add_const`: push the value and return
`(constants.len() - 1) as u16`.  The Rust cast `as u16` silently wraps,
hence the `% 65536`; the source performs no bounds check and cannot fail. -/
def addConst (c : Chunk) (value : Value) : Chunk × Nat :=
  let constants := c.constants ++ [value]
  ({ c with constants := constants }, (constants.length - 1) % 65536)

/-- `Chunk::add_const_ins`. -/
def addConstIns (c : Chunk) (value : Value) (line : Nat) : Chunk :=
  let (c, constant) := c.addConst value
  c.writeIns (OpCode.constant constant) line

/-- `Chunk::get_const`.  Rust indexing panics out of range; no execution
below reaches that case, and it is modelled by a `nil` default. -/
def getConst (c : Chunk) (index : Nat) : Value :=
  c.constants.getD index Value.nil

/-- `Chunk::get_line` (same out-of-range remark as `getConst`). -/
def getLine (c : Chunk) (index : Nat) : Nat :=
  c.lines.getD index 0

/-- `Chunk::len`. -/
def len (c : Chunk) : Nat := c.code.length

end Chunk

/-- `FunctionObj` from `src/bytecode.rs`.  `arity` is a `u8`. -/
structure FunctionObj where
  name : String
  arity : Nat
  chunk : Chunk
deriving DecidableEq

namespace FunctionObj

/-- `FunctionObj::MAIN_FUNC_NAME`. -/
def MAIN_FUNC_NAME : String := "<Main>"

/-- `FunctionObj::new`. -/
def new (name : String) (arity : Nat) : FunctionObj := ⟨name, arity, Chunk.new⟩

/-- `FunctionObj::new_main`. -/
def newMain : FunctionObj := ⟨MAIN_FUNC_NAME, 0, Chunk.new⟩

/-- `FunctionObj::is_main`. -/
def isMain (f : FunctionObj) : Bool := f.name == MAIN_FUNC_NAME

end FunctionObj

/-- `Precedence` from `src/bytecode.rs`, in declaration order. -/
inductive Precedence where
  | none
  | assignment
  | or
  | and
  | equality
  | comparison
  | term
  | factor
  | unary
  | call
  | primary
deriving DecidableEq

namespace Precedence

/-- Declaration-order rank, giving the derived `PartialOrd` of the Rust
enum. -/
def toNat : Precedence → Nat
  | none => 0
  | assignment => 1
  | or => 2
  | and => 3
  | equality => 4
  | comparison => 5
  | term => 6
  | factor => 7
  | unary => 8
  | call => 9
  | primary => 10

/-- Rust `<=` on `Precedence` (derived `PartialOrd`). -/
def ble (a b : Precedence) : Bool := a.toNat ≤ b.toNat

/-- `Precedence::higher` from `src/bytecode.rs`. -/
def higher : Precedence → Precedence
  | none => assignment
  | assignment => or
  | or => and
  | and => equality
  | equality => comparison
  | comparison => term
  | term => factor
  | factor => unary
  | unary => call
  | call => primary
  | primary => primary

end Precedence


/-- `TokenKind` from `src/token.rs`.  Constructor names that would collide
with Lean keywords get a trailing underscore (`class_`, `else_`, `fun_`,
`for_`, `if_`, `super_`, `this_`, `while_`); `ret` is the source's
`Return`. -/
inductive TokenKind where
  | eof
  | none
  | leftParen
  | rightParen
  | leftBrace
  | rightBrace
  | comma
  | dot
  | minus
  | plus
  | semicolon
  | slash
  | star
  | bang
  | bangEqual
  | equal
  | equalEqual
  | greater
  | greaterEqual
  | less
  | lessEqual
  | identifier (name : String)
  | string (contents : String)
  | number (value : F64)
  | and
  | class_
  | else_
  | false
  | fun_
  | for_
  | if_
  | nil
  | or
  | print
  | ret
  | super_
  | this_
  | true
  | var
  | while_
deriving DecidableEq

namespace TokenKind

/-- `TokenKind::precedence` from `src/token.rs`: infix binding strength of
each token kind. -/
def precedence : TokenKind → Precedence
  | slash | star => Precedence.factor
  | bang => Precedence.unary
  | equalEqual | bangEqual => Precedence.equality
  | greater | less | greaterEqual | lessEqual => Precedence.comparison
  | plus | minus => Precedence.term
  | equal => Precedence.assignment
  | and => Precedence.and
  | or => Precedence.or
  | _ => Precedence.none

/-- `impl Display for TokenKind` from `src/token.rs`. -/
def display : TokenKind → String
  | eof => "<EOF>"
  | none => "<NONE>"
  | leftParen => "("
  | rightParen => ")"
  | leftBrace => "\x7b"
  | rightBrace => "\x7d"
  | comma => ","
  | dot => "."
  | minus => "-"
  | plus => "+"
  | semicolon => ";"
  | slash => "/"
  | star => "*"
  | bang => "!"
  | bangEqual => "!="
  | equal => "="
  | equalEqual => "=="
  | greater => ">"
  | greaterEqual => ">="
  | less => "<"
  | lessEqual => "<="
  | identifier s => s
  | string s => s
  | number n => n.display
  | and => "and"
  | class_ => "class"
  | else_ => "else"
  | false => "false"
  | fun_ => "fun"
  | for_ => "for"
  | if_ => "if"
  | nil => "nil"
  | or => "or"
  | print => "print"
  | ret => "return"
  | super_ => "super"
  | this_ => "this"
  | true => "true"
  | var => "var"
  | while_ => "while"

end TokenKind

/-- `Token` from `src/token.rs`. -/
structure Token where
  kind : TokenKind
  line : Nat
  start : Nat
deriving DecidableEq

namespace Token

/-- `Token::new`. -/
def new (kind : TokenKind) (line : Nat) (start : Nat) : Token :=
  ⟨kind, line, start⟩

/-- `Token::none`. -/
def noneTok : Token := new TokenKind.none 0 0

end Token

/-- `Scanner` from `src/scanner.rs`.  The Rust scanner walks a byte
iterator kept in lockstep with the `current` index; the iterator is
redundant given `current`, so the model keeps only the character list and
the index.  Lox sources here are ASCII, so bytes and characters agree. -/
structure Scanner where
  source : List Char
  start : Nat
  current : Nat
  line : Nat
deriving DecidableEq

namespace Scanner

/-- `Scanner::new`. -/
def new (source : String) : Scanner := ⟨source.data, 0, 0, 1⟩

/-- `Scanner::peek`. -/
def peek (s : Scanner) : Option Char := s.source[s.current]?

/-- `Scanner::advance`: step past the current character and return it
(`None` past the end of input; `current` is incremented regardless, as in
the source). -/
def advance (s : Scanner) : Option Char × Scanner :=
  (s.source[s.current]?, { s with current := s.current + 1 })

/-- `Scanner::match_next`. -/
def matchNext (s : Scanner) (expected : Char) : Bool × Scanner :=
  if s.peek = some expected then (Bool.true, (s.advance).2) else (Bool.false, s)

/-- The substring `source[a..b]` as used by the scanner's slicing. -/
def slice (s : Scanner) (a b : Nat) : String :=
  String.mk ((s.source.drop a).take (b - a))

/-- `Scanner::make_token`. -/
def makeToken (s : Scanner) (kind : TokenKind) : Token :=
  Token.new kind s.line s.start

/-- `Scanner::error`: the formatted scan-error message. -/
def mkError (s : Scanner) (msg : String) : String :=
  "error: " ++ msg ++ " at line " ++ toString s.line ++ ", column "
    ++ toString s.start ++ "-" ++ toString (s.current - 1) ++ " ('"
    ++ s.slice s.start s.current ++ "')"

/-- `Scanner::make_token_match`. -/
def makeTokenMatch (s : Scanner) (toMatch : Char)
    (dflt matched : TokenKind) : Token × Scanner :=
  let (hit, s) := s.matchNext toMatch
  let kind := if hit then matched else dflt
  (s.makeToken kind, s)

/-- The inner `while self.peek() != Some(b'\n')` loop of
`Scanner::skip_whitespace` (the line-comment skip), with fuel.  The source
loop has no end-of-input case: when `peek` returns `None` it keeps
advancing, which is the non-termination established below. -/
def skipComment : Nat → Scanner → Option Scanner
  | 0, _ => Option.none
  | fuel + 1, s =>
      if s.peek = some '\n' then some s else skipComment fuel (s.advance).2

/-- `Scanner::skip_whitespace` from `src/scanner.rs`, with fuel. -/
def skipWhitespace : Nat → Scanner → Option (Except String Scanner)
  | 0, _ => Option.none
  | fuel + 1, s =>
      match s.peek with
      | some ' ' | some '\r' | some '\t' => skipWhitespace fuel (s.advance).2
      | some '\n' => skipWhitespace fuel ({ s with line := s.line + 1 }.advance).2
      | some '/' =>
          let s1 := (s.advance).2
          let (matched, s2) := s1.matchNext '/'
          if matched then
            match skipComment fuel s2 with
            | Option.none => Option.none
            | some s3 => skipWhitespace fuel s3
          else some (Except.error (s2.mkError "Unexpected character"))
      | _ => some (Except.ok s)

/-- The `while let Some(b'0'..=b'9') = self.peek()` loops of
`Scanner::make_number`, with fuel. -/
def skipDigits : Nat → Scanner → Option Scanner
  | 0, _ => Option.none
  | fuel + 1, s =>
      match s.peek with
      | some c => if c.isDigit then skipDigits fuel (s.advance).2 else some s
      | Option.none => some s

/-- Numeric value of a digit string (helper for `parseNumber`). -/
def digitsVal (cs : List Char) : Nat :=
  cs.foldl (fun acc c => acc * 10 + (c.toNat - 48)) 0

/-- Rust `str::parse::<f64>()` as invoked by `Scanner::make_number`, on the
digit-dot-digit strings the scanner produces.  Exact (no rounding); the
values evaluated below are small integers, where `f64` parsing is also
exact. -/
def parseNumber (cs : List Char) : F64 :=
  let intPart := cs.takeWhile (· ≠ '.')
  let frac := (cs.dropWhile (· ≠ '.')).drop 1
  F64.finite ((digitsVal intPart : ℚ) + (digitsVal frac : ℚ) / (10 : ℚ) ^ frac.length)

/-- `Scanner::make_number`, with fuel. -/
def makeNumber (fuel : Nat) (s : Scanner) : Option (Except String (Token × Scanner)) :=
  match skipDigits fuel s with
  | Option.none => Option.none
  | some s =>
      let afterDot :=
        if s.peek = some '.' then skipDigits fuel (s.advance).2 else some s
      match afterDot with
      | Option.none => Option.none
      | some s =>
          some (Except.ok
            (s.makeToken (TokenKind.number (parseNumber
              ((s.source.drop s.start).take (s.current - s.start)))), s))

/-- The scan loop of `Scanner::make_string`, with fuel. -/
def makeStringLoop : Nat → Scanner → Option (Except String Scanner)
  | 0, _ => Option.none
  | fuel + 1, s =>
      match s.peek with
      | some '"' => some (Except.ok (s.advance).2)
      | some '\n' => makeStringLoop fuel ({ s with line := s.line + 1 }.advance).2
      | some '\x00' => some (Except.error (s.mkError "Unterminated string."))
      | Option.none => some (Except.error (s.mkError "Unterminated string."))
      | some _ => makeStringLoop fuel (s.advance).2

/-- `Scanner::make_string`, with fuel. -/
def makeString (fuel : Nat) (s : Scanner) : Option (Except String (Token × Scanner)) :=
  match makeStringLoop fuel s with
  | Option.none => Option.none
  | some (Except.error e) => some (Except.error e)
  | some (Except.ok s) =>
      some (Except.ok
        (s.makeToken (TokenKind.string (s.slice (s.start + 1) (s.current - 1))), s))

/-- `Scanner::get_identifier`. -/
def getIdentifier (s : Scanner) : TokenKind :=
  TokenKind.identifier (s.slice s.start s.current)

/-- `Scanner::check_keyword`. -/
def checkKeyword (s : Scanner) (off : Nat) (rest : String) (kind : TokenKind)
    : TokenKind :=
  if s.current - s.start = off + rest.length
      ∧ (s.source.drop (s.start + off)).take rest.length = rest.data
  then kind else s.getIdentifier

/-- Identifier/keyword characters accepted by `Scanner::make_identifier`'s
loop (`a-z`, `A-Z`, `0-9`, `_`). -/
def isIdentChar (c : Char) : Bool := c.isAlpha || c.isDigit || c = '_'

/-- The character-consuming loop of `Scanner::make_identifier`, with fuel. -/
def skipIdentChars : Nat → Scanner → Option Scanner
  | 0, _ => Option.none
  | fuel + 1, s =>
      match s.peek with
      | some c => if isIdentChar c then skipIdentChars fuel (s.advance).2 else some s
      | Option.none => some s

/-- The keyword-recognition tail of `Scanner::make_identifier` (the match
on the first byte of the lexeme). -/
def identifierKind (s : Scanner) : TokenKind :=
  match s.source[s.start]? with
  | some 'a' => s.checkKeyword 1 "nd" TokenKind.and
  | some 'c' => s.checkKeyword 1 "lass" TokenKind.class_
  | some 'e' => s.checkKeyword 1 "lse" TokenKind.else_
  | some 'f' =>
      if s.current - s.start > 1 then
        match s.source[s.start + 1]? with
        | some 'a' => s.checkKeyword 2 "lse" TokenKind.false
        | some 'o' => s.checkKeyword 2 "r" TokenKind.for_
        | some 'u' => s.checkKeyword 2 "n" TokenKind.fun_
        | _ => s.getIdentifier
      else s.getIdentifier
  | some 'i' => s.checkKeyword 1 "f" TokenKind.if_
  | some 'n' => s.checkKeyword 1 "il" TokenKind.nil
  | some 'o' => s.checkKeyword 1 "r" TokenKind.or
  | some 'p' => s.checkKeyword 1 "rint" TokenKind.print
  | some 'r' => s.checkKeyword 1 "eturn" TokenKind.ret
  | some 's' => s.checkKeyword 1 "uper" TokenKind.super_
  | some 't' =>
      if s.current - s.start > 1 then
        match s.source[s.start + 1]? with
        | some 'h' => s.checkKeyword 2 "is" TokenKind.this_
        | some 'r' => s.checkKeyword 2 "ue" TokenKind.true
        | _ => s.getIdentifier
      else s.getIdentifier
  | some 'v' => s.checkKeyword 1 "ar" TokenKind.var
  | some 'w' => s.checkKeyword 1 "hile" TokenKind.while_
  | _ => s.getIdentifier

/-- `Scanner::make_identifier`, with fuel. -/
def makeIdentifier (fuel : Nat) (s : Scanner) : Option (Token × Scanner) :=
  match skipIdentChars fuel s with
  | Option.none => Option.none
  | some s => some (s.makeToken s.identifierKind, s)

/-- `Scanner::scan_token` from `src/scanner.rs`, with fuel
(`Option.none` = fuel ran out, used to state the non-termination claim). -/
def scanToken (fuel : Nat) (s : Scanner) : Option (Except String (Token × Scanner)) :=
  match skipWhitespace fuel s with
  | Option.none => Option.none
  | some (Except.error e) => some (Except.error e)
  | some (Except.ok s) =>
      let s := { s with start := s.current }
      match s.advance with
      | (Option.none, s) => some (Except.ok (s.makeToken TokenKind.eof, s))
      | (some ch, s) =>
          if ch = '(' then some (Except.ok (s.makeToken TokenKind.leftParen, s))
          else if ch = ')' then some (Except.ok (s.makeToken TokenKind.rightParen, s))
          else if ch = '\x7b' then some (Except.ok (s.makeToken TokenKind.leftBrace, s))
          else if ch = '\x7d' then some (Except.ok (s.makeToken TokenKind.rightBrace, s))
          else if ch = ',' then some (Except.ok (s.makeToken TokenKind.comma, s))
          else if ch = '.' then some (Except.ok (s.makeToken TokenKind.dot, s))
          else if ch = '-' then some (Except.ok (s.makeToken TokenKind.minus, s))
          else if ch = '+' then some (Except.ok (s.makeToken TokenKind.plus, s))
          else if ch = ';' then some (Except.ok (s.makeToken TokenKind.semicolon, s))
          else if ch = '*' then some (Except.ok (s.makeToken TokenKind.star, s))
          else if ch = '!' then
            some (Except.ok (s.makeTokenMatch '=' TokenKind.bang TokenKind.bangEqual))
          else if ch = '=' then
            some (Except.ok (s.makeTokenMatch '=' TokenKind.equal TokenKind.equalEqual))
          else if ch = '<' then
            some (Except.ok (s.makeTokenMatch '=' TokenKind.less TokenKind.lessEqual))
          else if ch = '>' then
            some (Except.ok (s.makeTokenMatch '=' TokenKind.greater TokenKind.greaterEqual))
          else if ch = '"' then makeString fuel s
          else if ch.isDigit then makeNumber fuel s
          else if ch.isAlpha || ch = '_' then
            match makeIdentifier fuel s with
            | Option.none => Option.none
            | some p => some (Except.ok p)
          else some (Except.error (s.mkError "Unexpected character"))

end Scanner


/-- `CallFrame` from `src/vm.rs`. -/
structure CallFrame where
  ip : Nat
  stackStart : Nat
  funId : Nat
deriving DecidableEq

/-- `CallFrame::new`. -/
def CallFrame.new (stackStart funId : Nat) : CallFrame :=
  ⟨0, stackStart, funId⟩

/-- VM failure modes: `runtime msg` is a `runtime_error` return value
carrying the message handed to `VM::runtime_error` (see
`renderRuntimeError` for the full formatted string the source wraps it
in); `panicked msg` is a Rust panic (`internal_error`, `expect`,
`unreachable!`, out-of-bounds indexing), which aborts the process rather
than unwinding as an error. -/
inductive VMErr where
  | runtime (msg : String)
  | panicked (msg : String)
deriving DecidableEq

/-- `VM` from `src/vm.rs`.  The `lock` handle on stdout becomes the
accumulated `output` string; the `globals` hash map becomes an association
list (only `insert`/`get`/`contains_key` are used, so ordering is
unobservable). -/
structure VMState where
  frames : List CallFrame
  stack : List Value
  functions : List FunctionObj
  globals : List (String × Value)
  output : String
deriving DecidableEq

namespace VMState

/-- `VM::FRAME_MAX`. -/
def FRAME_MAX : Nat := 256

/-- `VM::STACK_MAX` (used in the source only as the initial capacity of
the stack vector — capacity is not a bound, the vector grows past it). -/
def STACK_MAX : Nat := 256

/-- `VM::new`: push the top-level function value (the last entry of the
function table) and its frame. -/
def new (functions : List FunctionObj) : VMState :=
  let codeId := functions.length - 1
  { frames := [CallFrame.new 0 codeId]
    stack := [Value.function codeId]
    functions := functions
    globals := []
    output := "" }

/-- `VM::curr_frame`.  The source unwraps (there is always a frame while
executing, as its comment notes); the default is never reached in any
execution below. -/
def currFrame (vm : VMState) : CallFrame :=
  (vm.frames.getLast?).getD (CallFrame.new 0 0)

/-- Replace the current (last) frame. -/
def setCurrFrame (vm : VMState) (fr : CallFrame) : VMState :=
  { vm with frames := vm.frames.dropLast ++ [fr] }

/-- `VM::ip`. -/
def ip (vm : VMState) : Nat := vm.currFrame.ip

/-- `*self.ip_mut() = n`. -/
def setIp (vm : VMState) (n : Nat) : VMState :=
  vm.setCurrFrame { vm.currFrame with ip := n }

/-- `VM::get_fun` table lookup followed by `.chunk()`, as composed by
`VM::chunk`.  Rust indexing panics out of range; every `fun_id` reaching
execution is a valid table index, and the default is never hit below. -/
def chunk (vm : VMState) : Chunk :=
  (vm.functions.getD vm.currFrame.funId FunctionObj.newMain).chunk

/-- `VM::push_stack` from `src/vm.rs`: a plain `Vec::push`.  There is no
capacity check and no error path in the source. -/
def pushStack (vm : VMState) (v : Value) : VMState :=
  { vm with stack := vm.stack ++ [v] }

/-- `VM::internal_error`: a panic with an `Internal error: ` prefix. -/
def internalError (msg : String) : VMErr :=
  VMErr.panicked ("Internal error: " ++ msg)

/-- `VM::pop_stack`. -/
def popStack (vm : VMState) : Except VMErr (Value × VMState) :=
  match vm.stack.getLast? with
  | some value => Except.ok (value, { vm with stack := vm.stack.dropLast })
  | Option.none => Except.error (internalError "Tried to pop an empty stack")

/-- `VM::peek_stack`. -/
def peekStack (vm : VMState) (offset : Nat) : Option Value :=
  if offset < vm.stack.length then vm.stack[vm.stack.length - 1 - offset]?
  else Option.none

/-- `VM::peek_stack_unwrapped`. -/
def peekStackUnwrapped (vm : VMState) (offset : Nat) : Except VMErr Value :=
  match vm.peekStack offset with
  | some v => Except.ok v
  | Option.none =>
      Except.error (internalError ("Expected value at stack at index "
        ++ toString ((vm.stack.length : Int) - 1 - (offset : Int))
        ++ " but found no value"))

/-- `VM::pop_number`. -/
def popNumber (vm : VMState) : Except VMErr (F64 × VMState) := do
  let (v, vm) ← vm.popStack
  match v with
  | Value.number n => Except.ok (n, vm)
  | v => Except.error (VMErr.runtime ("Expected a number but got " ++ v.display))

/-- The full string `VM::runtime_error` builds from a message and the
frame chain (`Error::from` of this string is what the source returns; the
model's `VMErr.runtime` carries the un-rendered message). -/
def renderRuntimeError (vm : VMState) (msg : String) : String :=
  (vm.frames.reverse.map (fun fr =>
      let func := vm.functions.getD fr.funId FunctionObj.newMain
      "\n[line " ++ toString (func.chunk.getLine (fr.ip - 1)) ++ "] in "
        ++ func.name ++ "()")).foldl
    (fun acc s => acc ++ s)
    ("Runtime error: " ++ msg ++ " \nstack trace:")

/-- `VM::call` from `src/vm.rs`: peek at depth `arg_count`, require a
`Function` value, require matching arity (else a runtime error naming the
callee), require a free frame slot (else "Stack overflow"), then push the
new frame; the value stack is untouched. -/
def call (vm : VMState) (argCount : Nat) : Except VMErr VMState := do
  let calee ← vm.peekStackUnwrapped argCount
  match calee with
  | Value.function id =>
      match vm.functions[id]? with
      | Option.none => Except.error (VMErr.panicked "index out of bounds")
      | some f =>
          if argCount ≠ f.arity then
            Except.error (VMErr.runtime ("Expected " ++ toString f.arity
              ++ " arguments but got " ++ toString argCount
              ++ " in call to " ++ f.name ++ "()"))
          else if vm.frames.length = FRAME_MAX then
            Except.error (VMErr.runtime "Stack overflow")
          else
            Except.ok { vm with
              frames := vm.frames
                ++ [CallFrame.new (vm.stack.length - argCount - 1) id] }
  | _ =>
      Except.error (VMErr.runtime ("Can only call functions, not "
        ++ calee.display))

/-- `HashMap::insert` on the association-list model of `globals`
(replaces an existing binding, else appends). -/
def globalsInsert (g : List (String × Value)) (k : String) (v : Value)
    : List (String × Value) :=
  if (g.lookup k).isSome then
    g.map (fun p => if p.1 = k then (k, v) else p)
  else g ++ [(k, v)]

/-- `VM::define_global`. -/
def defineGlobal (vm : VMState) (index : Nat) : Except VMErr VMState :=
  match vm.chunk.getConst index with
  | Value.string s => do
      let (val, vm) ← vm.popStack
      Except.ok { vm with globals := globalsInsert vm.globals s val }
  | _ => Except.error (VMErr.panicked "define global: expected string")

/-- `VM::get_global`. -/
def getGlobal (vm : VMState) (index : Nat) : Except VMErr VMState :=
  match vm.chunk.getConst index with
  | Value.string ident =>
      match vm.globals.lookup ident with
      | some val => Except.ok (vm.pushStack val)
      | Option.none =>
          Except.error (VMErr.runtime ("Undefined global variable '"
            ++ ident ++ "'"))
  | _ => Except.error (internalError "get global: expected string")

/-- `VM::set_global`. -/
def setGlobal (vm : VMState) (index : Nat) : Except VMErr VMState :=
  match vm.chunk.getConst index with
  | Value.string ident => do
      let val ← vm.peekStackUnwrapped 0
      if (vm.globals.lookup ident).isSome then
        Except.ok { vm with globals := globalsInsert vm.globals ident val }
      else
        Except.error (VMErr.runtime ("Undefined global variable '"
          ++ ident ++ "'"))
  | _ => Except.error (internalError "set global: expected string")

/-- `VM::print`: pop and write the value's display followed by a
newline. -/
def print (vm : VMState) : Except VMErr VMState := do
  let (val, vm) ← vm.popStack
  Except.ok { vm with output := vm.output ++ val.display ++ "\n" }

/-- `VM::negate`. -/
def negate (vm : VMState) : Except VMErr VMState := do
  let (v, vm) ← vm.popStack
  match v with
  | Value.number n => Except.ok (vm.pushStack (Value.number n.neg))
  | v => Except.error (VMErr.runtime ("Cannot negate " ++ v.display))

/-- `VM::not` from `src/vm.rs`: `!` accepts only Boolean and Nil; every
other variant is a runtime error. -/
def notOp (vm : VMState) : Except VMErr VMState := do
  let (v, vm) ← vm.popStack
  match v with
  | Value.boolean b => Except.ok (vm.pushStack (Value.boolean (!b)))
  | Value.nil => Except.ok (vm.pushStack (Value.boolean Bool.true))
  | v =>
      Except.error (VMErr.runtime ("Cannot perform '!' operation on "
        ++ v.display))

/-- `VM::add`: number addition or string concatenation, anything else a
runtime error. -/
def addOp (vm : VMState) : Except VMErr VMState := do
  let (b, vm) ← vm.popStack
  let (a, vm) ← vm.popStack
  match a, b with
  | Value.number a, Value.number b =>
      Except.ok (vm.pushStack (Value.number (a.add b)))
  | Value.string s1, Value.string s2 =>
      Except.ok (vm.pushStack (Value.string (s1 ++ s2)))
  | a, b =>
      Except.error (VMErr.runtime ("Cannot add " ++ a.display ++ " and "
        ++ b.display))

/-- `VM::binary` from `src/vm.rs`: pop the right operand then the left
(each must be a number), apply Subtract/Multiply/Divide.  Any other
opcode is the source's `unreachable!()`. -/
def binary (vm : VMState) (operator : OpCode) : Except VMErr VMState := do
  let (b, vm) ← vm.popNumber
  let (a, vm) ← vm.popNumber
  match operator with
  | OpCode.subtract => Except.ok (vm.pushStack (Value.number (a.sub b)))
  | OpCode.multiply => Except.ok (vm.pushStack (Value.number (a.mul b)))
  | OpCode.divide => Except.ok (vm.pushStack (Value.number (a.div b)))
  | _ => Except.error (VMErr.panicked "entered unreachable code")

/-- `VM::comparison`. -/
def comparison (vm : VMState) (operator : OpCode) : Except VMErr VMState := do
  let (b, vm) ← vm.popNumber
  let (a, vm) ← vm.popNumber
  match operator with
  | OpCode.greater => Except.ok (vm.pushStack (Value.boolean (a.bgt b)))
  | OpCode.less => Except.ok (vm.pushStack (Value.boolean (a.blt b)))
  | _ => Except.error (VMErr.panicked "entered unreachable code")

/-- `VM::equality`. -/
def equality (vm : VMState) : Except VMErr VMState := do
  let (b, vm) ← vm.popStack
  let (a, vm) ← vm.popStack
  Except.ok (vm.pushStack (Value.boolean (Value.valueEq a b)))

/-- `VM::stack_get` (frame-relative stack read; Rust indexing panics out
of range). -/
def stackGet (vm : VMState) (index : Nat) : Option Value :=
  vm.stack[vm.currFrame.stackStart + index]?

/-- `VM::is_at_end`. -/
def isAtEnd (vm : VMState) : Bool := vm.chunk.len ≤ vm.ip

/-- `VM::execute_ins` from `src/vm.rs`: fetch the opcode at `ip`,
increment `ip` (the source's `advance`), execute.  `Ok (true, _)` is the
source's `Ok(true)` ("stop execution"). -/
def executeIns (vm : VMState) : Except VMErr (Bool × VMState) :=
  let fetchIp := vm.ip
  let vm := vm.setIp (fetchIp + 1)
  match vm.chunk.code[fetchIp]? with
  | Option.none => Except.error (VMErr.panicked "index out of bounds")
  | some op =>
    match op with
    | OpCode.constant index =>
        Except.ok (Bool.false, vm.pushStack (vm.chunk.getConst index))
    | OpCode.print => do
        let vm ← vm.print
        Except.ok (Bool.false, vm)
    | OpCode.pop => do
        let (_, vm) ← vm.popStack
        Except.ok (Bool.false, vm)
    | OpCode.defineGlobal index => do
        let vm ← vm.defineGlobal index
        Except.ok (Bool.false, vm)
    | OpCode.getGlobal index => do
        let vm ← vm.getGlobal index
        Except.ok (Bool.false, vm)
    | OpCode.setGlobal index => do
        let vm ← vm.setGlobal index
        Except.ok (Bool.false, vm)
    | OpCode.getLocal offset =>
        match vm.stackGet offset with
        | some v => Except.ok (Bool.false, vm.pushStack v)
        | Option.none => Except.error (VMErr.panicked "index out of bounds")
    | OpCode.setLocal offset => do
        let v ← vm.peekStackUnwrapped 0
        if vm.currFrame.stackStart + offset < vm.stack.length then
          Except.ok (Bool.false,
            { vm with stack := vm.stack.set (vm.currFrame.stackStart + offset) v })
        else Except.error (VMErr.panicked "index out of bounds")
    | OpCode.jumpIfFalse offset =>
        match offset with
        | Option.none =>
            Except.error (VMErr.panicked
              "Internal error: jump instruction has no offset")
        | some offset => do
            let v ← vm.peekStackUnwrapped 0
            if !v.isTruthy then Except.ok (Bool.false, vm.setIp (vm.ip + offset))
            else Except.ok (Bool.false, vm)
    | OpCode.jump offset =>
        match offset with
        | Option.none =>
            Except.error (VMErr.panicked
              "Internal error: jump instruction has no offset")
        | some offset => Except.ok (Bool.false, vm.setIp (vm.ip + offset))
    | OpCode.loop offset =>
        Except.ok (Bool.false, vm.setIp (vm.ip - offset))
    | OpCode.call argCount => do
        let vm ← vm.call argCount
        Except.ok (Bool.false, vm)
    | OpCode.true =>
        Except.ok (Bool.false, vm.pushStack (Value.boolean Bool.true))
    | OpCode.false =>
        Except.ok (Bool.false, vm.pushStack (Value.boolean Bool.false))
    | OpCode.nil => Except.ok (Bool.false, vm.pushStack Value.nil)
    | OpCode.negate => do
        let vm ← vm.negate
        Except.ok (Bool.false, vm)
    | OpCode.not => do
        let vm ← vm.notOp
        Except.ok (Bool.false, vm)
    | OpCode.greater => do
        let vm ← vm.comparison OpCode.greater
        Except.ok (Bool.false, vm)
    | OpCode.less => do
        let vm ← vm.comparison OpCode.less
        Except.ok (Bool.false, vm)
    | OpCode.equal => do
        let vm ← vm.equality
        Except.ok (Bool.false, vm)
    | OpCode.add => do
        let vm ← vm.addOp
        Except.ok (Bool.false, vm)
    | OpCode.subtract => do
        let vm ← vm.binary OpCode.subtract
        Except.ok (Bool.false, vm)
    | OpCode.multiply => do
        let vm ← vm.binary OpCode.multiply
        Except.ok (Bool.false, vm)
    | OpCode.divide => do
        let vm ← vm.binary OpCode.divide
        Except.ok (Bool.false, vm)
    | OpCode.ret => do
        let (ret, vm) ← vm.popStack
        match vm.frames.getLast? with
        | Option.none => Except.error (internalError "no frame to pop")
        | some frame =>
            let vm := { vm with frames := vm.frames.dropLast }
            if vm.frames.isEmpty then do
              let (_, vm) ← vm.popStack
              Except.ok (Bool.true, vm)
            else
              Except.ok (Bool.false,
                ({ vm with stack := vm.stack.take frame.stackStart }).pushStack ret)

/-- `VM::run` from `src/vm.rs`, with fuel: execute instructions until the
current chunk is exhausted or `Return` ends the last frame.  The error
case also carries the VM state reached so far (in the source the state is
simply still in `self`; the output printed before the error stays on
stdout). -/
def run : Nat → VMState → Option (Except (VMErr × VMState) VMState)
  | 0, _ => Option.none
  | fuel + 1, vm =>
      if vm.isAtEnd then some (Except.ok vm)
      else
        match vm.executeIns with
        | Except.error e => some (Except.error (e, vm))
        | Except.ok (Bool.true, vm) => some (Except.ok vm)
        | Except.ok (Bool.false, vm) => run fuel vm

end VMState


/-- `Local` from `src/compiler.rs` (compile-time variable record). -/
structure Local where
  name : String
  depth : Option Nat
deriving DecidableEq

/-- `Local::new`. -/
def Local.new (name : String) (depth : Option Nat) : Local := ⟨name, depth⟩

/-- `Parser` from `src/compiler.rs`: the token producer shared (via
`RefCell`) by the main compiler and nested function compilers.  In the
model it is threaded through every compiler state explicitly. -/
structure ParserSt where
  scanner : Scanner
  current : Token
  previous : Token
deriving DecidableEq

/-- `Parser::with_source`. -/
def ParserSt.withSource (source : String) : ParserSt :=
  ⟨Scanner.new source, Token.noneTok, Token.noneTok⟩

/-- `Compiler` from `src/compiler.rs`.  The `fun` field is `fn` here
(`fun` is a Lean keyword); `functions` is `Some` only for the main
compiler, exactly as in the source. -/
structure Compiler where
  parser : ParserSt
  errorCount : Nat
  fn : FunctionObj
  functions : Option (List FunctionObj)
  locals : List Local
  scopeDepth : Nat
deriving DecidableEq

/-- Result of a compiler action: Rust `Result<α>` together with the
(mutated) compiler state, which persists across an `Err` (the caller's
`self` keeps all changes made before the error).  `panicked` is a Rust
panic; `fuelOut` means the model's fuel ran out. -/
inductive CompRes (α : Type) where
  | ok (a : α) (c : Compiler)
  | err (e : String) (c : Compiler)
  | panicked (msg : String)
  | fuelOut

/-- Sequencing of compiler actions. -/
def CompRes.bind {α β : Type} : CompRes α → (α → Compiler → CompRes β) → CompRes β
  | CompRes.ok a c, f => f a c
  | CompRes.err e c, _ => CompRes.err e c
  | CompRes.panicked m, _ => CompRes.panicked m
  | CompRes.fuelOut, _ => CompRes.fuelOut

namespace Compiler

/-- `Compiler::new`: slot 0 of the locals stack is a blank entry at depth
0 (it mirrors the callee value occupying runtime slot 0). -/
def new (parser : ParserSt) (fn : FunctionObj)
    (functions : Option (List FunctionObj)) : Compiler :=
  { parser := parser
    errorCount := 0
    fn := fn
    functions := functions
    locals := [Local.new "" (some 0)]
    scopeDepth := 0 }

/-- `Compiler::with_fun` (nested compiler for a function body). -/
def withFun (parser : ParserSt) (fn : FunctionObj) : Compiler :=
  new parser fn Option.none

/-- `Compiler::main_compiler`. -/
def mainCompiler (parser : ParserSt) : Compiler :=
  new parser FunctionObj.newMain (some [])

/-- `Parser::update_tokens`: `previous` takes the old `current`. -/
def updateTokens (c : Compiler) (t : Token) : Compiler :=
  { c with parser := { c.parser with previous := c.parser.current, current := t } }

/-- `Compiler::scan_token`: run the shared scanner one token forward. -/
def scanTokenC (fuel : Nat) (c : Compiler) : CompRes Token :=
  match c.parser.scanner.scanToken fuel with
  | Option.none => CompRes.fuelOut
  | some (Except.error e) => CompRes.err e c
  | some (Except.ok (t, sc)) =>
      CompRes.ok t { c with parser := { c.parser with scanner := sc } }

/-- `Compiler::current_kind`. -/
def currentKind (c : Compiler) : TokenKind := c.parser.current.kind

/-- `Compiler::previous_kind`. -/
def previousKind (c : Compiler) : TokenKind := c.parser.previous.kind

/-- `Compiler::emit_ins`: write an opcode into the current function's
chunk at the previous token's line. -/
def emitIns (c : Compiler) (ins : OpCode) : Compiler :=
  { c with fn :=
      { c.fn with chunk := c.fn.chunk.writeIns ins c.parser.previous.line } }

/-- `Compiler::add_const`. -/
def addConstC (c : Compiler) (val : Value) : Compiler × Nat :=
  let (chunk, id) := c.fn.chunk.addConst val
  ({ c with fn := { c.fn with chunk := chunk } }, id)

/-- `Compiler::emit_const_ins`. -/
def emitConstIns (c : Compiler) (value : Value) : Compiler :=
  { c with fn :=
      { c.fn with chunk := c.fn.chunk.addConstIns value c.parser.previous.line } }

/-- `Compiler::report_error`: count the error (the source also prints it
to stderr, which is not modelled). -/
def reportError (c : Compiler) : Compiler :=
  { c with errorCount := c.errorCount + 1 }

/-- `Compiler::error_at`: the formatted compile-error message. -/
def errorAt (token : Token) (msg : String) : String :=
  msg ++ " at line " ++ toString token.line ++ ", at token '"
    ++ token.kind.display ++ "'"

/-- `Compiler::error_at_previous`. -/
def errorAtPrevious (c : Compiler) (msg : String) : String :=
  errorAt c.parser.previous msg

/-- `Compiler::error_at_current`. -/
def errorAtCurrent (c : Compiler) (msg : String) : String :=
  errorAt c.parser.current msg

/-- `Compiler::check_curr`. -/
def checkCurr (c : Compiler) (kind : TokenKind) : Bool :=
  c.currentKind = kind

/-- `Compiler::is_at_end`. -/
def isAtEnd (c : Compiler) : Bool := c.checkCurr TokenKind.eof

/-- `Compiler::advance`: scan one token and shift the lookahead pair (on
a scan error the pair is left unchanged and the error propagates). -/
def advanceC (fuel : Nat) (c : Compiler) : CompRes Unit :=
  (c.scanTokenC fuel).bind fun t c => CompRes.ok () (c.updateTokens t)

/-- `Compiler::match_curr`. -/
def matchCurr (fuel : Nat) (c : Compiler) (kind : TokenKind) : CompRes Bool :=
  if c.checkCurr kind then
    (c.advanceC fuel).bind fun () c => CompRes.ok Bool.true c
  else CompRes.ok Bool.false c

/-- `Compiler::consume`. -/
def consume (fuel : Nat) (c : Compiler) (expected : TokenKind) (msg : String)
    : CompRes Unit :=
  if c.checkCurr expected then c.advanceC fuel
  else CompRes.err (c.errorAtCurrent msg) c

/-- `Compiler::consume_ident`. -/
def consumeIdent (fuel : Nat) (c : Compiler) (msg : String) : CompRes String :=
  match c.currentKind with
  | TokenKind.identifier ident =>
      (c.advanceC fuel).bind fun () c => CompRes.ok ident c
  | _ => CompRes.err (c.errorAtCurrent msg) c

/-- `Compiler::write_ident_constant`. -/
def writeIdentConstant (c : Compiler) (ident : String) : Compiler × Nat :=
  c.addConstC (Value.string ident)

/-- `Compiler::synchronize`: skip tokens to the next statement boundary.
An outer scan error is silently skipped (the `if let Ok` falls through
without reporting); a scan error right after a `;` is reported and the
loop continues.  In the `;` case the source assigns `previous = token`
and then calls `update_tokens`, which immediately overwrites `previous`
with the old `current` — both steps are reproduced. -/
def synchronize (fuel' : Nat) : Nat → Compiler → Option Compiler
  | 0, _ => Option.none
  | fuel + 1, c =>
      match c.scanTokenC fuel' with
      | CompRes.fuelOut => Option.none
      | CompRes.panicked _ => Option.none
      | CompRes.err _ c => synchronize fuel' fuel c
      | CompRes.ok token c =>
          match token.kind with
          | TokenKind.semicolon =>
              match c.scanTokenC fuel' with
              | CompRes.fuelOut => Option.none
              | CompRes.panicked _ => Option.none
              | CompRes.err _ c => synchronize fuel' fuel (c.reportError)
              | CompRes.ok next c =>
                  let c := { c with parser := { c.parser with previous := token } }
                  some (c.updateTokens next)
          | TokenKind.eof | TokenKind.class_ | TokenKind.fun_ | TokenKind.var
          | TokenKind.for_ | TokenKind.if_ | TokenKind.while_
          | TokenKind.print | TokenKind.ret => some (c.updateTokens token)
          | _ => synchronize fuel' fuel c

/-- The duplicate-declaration scan of `Compiler::declare_local`, over the
locals stack from the top down: stop at the first local strictly below
the current scope depth, report a hit on a same-name local above it. -/
def dupInScope : List Local → Nat → String → Bool
  | [], _, _ => Bool.false
  | l :: rest, sd, name =>
      if l.depth.isSome ∧ l.depth.getD 0 < sd then Bool.false
      else if l.name = name then Bool.true
      else dupInScope rest sd name

/-- `Compiler::declare_local`. -/
def declareLocal (c : Compiler) (name : String) : CompRes Unit :=
  if dupInScope c.locals.reverse c.scopeDepth name then
    CompRes.err
      (c.errorAtPrevious "Variable with this name already declared in this scope.") c
  else CompRes.ok () { c with locals := c.locals ++ [Local.new name Option.none] }

/-- `Compiler::declare_variable`. -/
def declareVariable (fuel : Nat) (c : Compiler) : CompRes (Nat × String) :=
  let msg := match c.previousKind with
    | TokenKind.fun_ => "Expect function name."
    | _ => "Expect variable name."
  (c.consumeIdent fuel msg).bind fun name c =>
    if c.scopeDepth = 0 then
      let (c, id) := c.writeIdentConstant name
      CompRes.ok (id, name) c
    else
      (c.declareLocal name).bind fun () c => CompRes.ok (0, name) c

/-- `Compiler::mark_initialized`.  The source unwraps the last local;
`locals` is never empty (slot 0 is pushed at construction), so the
no-last case below is unreachable. -/
def markInitialized (c : Compiler) : Compiler :=
  if c.scopeDepth = 0 then c
  else
    match c.locals.getLast? with
    | some l =>
        { c with locals := c.locals.dropLast
            ++ [{ l with depth := some c.scopeDepth }] }
    | Option.none => c

/-- `Compiler::define_variable`. -/
def defineVariable (c : Compiler) (id : Nat) : Compiler :=
  if c.scopeDepth = 0 then c.emitIns (OpCode.defineGlobal id)
  else c.markInitialized

/-- The scan of `Compiler::resolve_local` over the reversed locals stack:
the reverse-enumeration index `i` of the first name match, together with
that local. -/
def resolveLocalFind : List Local → Nat → String → Option (Nat × Local)
  | [], _, _ => Option.none
  | l :: rest, i, name =>
      if l.name = name then some (i, l) else resolveLocalFind rest (i + 1) name

/-- `Compiler::resolve_local` from `src/compiler.rs`.  When the matched
local is still uninitialized (`depth == None`) the source calls
`self.error_at_previous("Cannot read local variable in its own initializer.")`
and DISCARDS the returned `Error` value — nothing is reported,
`error_count` is untouched, and the slot is returned anyway, so the
function is pure.  The discarded expression is kept below as `_dropped`
to mirror the source line.  The slot is `(len - 1 - i) as u16`. -/
def resolveLocal (c : Compiler) (name : String) : Option Nat :=
  match resolveLocalFind c.locals.reverse 0 name with
  | some (i, l) =>
      let _dropped :=
        if l.depth = Option.none then
          some (c.errorAtPrevious "Cannot read local variable in its own initializer.")
        else Option.none
      some ((c.locals.length - 1 - i) % 65536)
  | Option.none => Option.none

/-- The local-discarding `while` of `Compiler::end_scope`, fueled by the
length of the locals stack (each step pops one local).  The source
unwraps each popped local's `depth`; a `None` depth there would be a
panic, a path no execution below reaches (the `getD 0` default stops the
loop instead). -/
def endScopeLoop : Nat → Compiler → Compiler
  | 0, c => c
  | n + 1, c =>
      match c.locals.getLast? with
      | some l =>
          if l.depth.getD 0 > c.scopeDepth then
            endScopeLoop n
              { c.emitIns OpCode.pop with locals := c.locals.dropLast }
          else c
      | Option.none => c

/-- `Compiler::end_scope`. -/
def endScope (c : Compiler) : Compiler :=
  let c := { c with scopeDepth := c.scopeDepth - 1 }
  endScopeLoop c.locals.length c

/-- `Compiler::emit_jump`: emit and return the emitted index. -/
def emitJump (c : Compiler) (ins : OpCode) : Compiler × Nat :=
  let c := c.emitIns ins
  (c, c.fn.chunk.len - 1)

/-- `Compiler::emit_loop` from `src/compiler.rs`: backward offset
`len - loop_start + 1`, rejected with "Loop body too large." when it
exceeds `u16::MAX`. -/
def emitLoop (c : Compiler) (loopStart : Nat) : CompRes Unit :=
  let offset := c.fn.chunk.len - loopStart + 1
  if offset > 65535 then
    CompRes.err (c.errorAtPrevious "Loop body too large.") c
  else CompRes.ok () (c.emitIns (OpCode.loop offset))

/-- The chunk rewrite of `Compiler::patch_jump` from `src/compiler.rs`:
the operand becomes `(len - index - 1) as u16` — the cast silently wraps
(`% 65536`), there is no distance check and no error path.  `none` is the
source's `unreachable!` panic on a non-jump or already-patched
instruction. -/
def patchJumpChunk (ch : Chunk) (index : Nat) : Option Chunk :=
  let jumpOffset := (ch.len - index - 1) % 65536
  match ch.code[index]? with
  | some (OpCode.jumpIfFalse Option.none) =>
      some { ch with code := ch.code.set index (OpCode.jumpIfFalse (some jumpOffset)) }
  | some (OpCode.jump Option.none) =>
      some { ch with code := ch.code.set index (OpCode.jump (some jumpOffset)) }
  | _ => Option.none

/-- `Compiler::patch_jump` (lifting the chunk rewrite to the compiler;
the panic case aborts). -/
def patchJump (c : Compiler) (index : Nat) : CompRes Unit :=
  match patchJumpChunk c.fn.chunk index with
  | some ch => CompRes.ok () { c with fn := { c.fn with chunk := ch } }
  | Option.none =>
      CompRes.panicked "Internal error: Tried to patch non jump insruction"

end Compiler


/-- Rust `{:?}` (derived Debug) for `f64` as carried by number tokens:
integral values print with a trailing `.0`.  Like `F64.display`, exact for
the integral values exercised here. -/
def F64.debugStr : F64 → String
  | F64.finite q => if q.den = 1 then toString q.num ++ ".0"
      else toString q.num ++ "/" ++ toString q.den
  | F64.inf s => if s then "-inf" else "inf"
  | F64.nan => "NaN"

/-- Rust `{:?}` (derived Debug) for `TokenKind`, used by the compiler's
"Unexpected token" message. -/
def TokenKind.debugStr : TokenKind → String
  | TokenKind.eof => "Eof"
  | TokenKind.none => "None"
  | TokenKind.leftParen => "LeftParen"
  | TokenKind.rightParen => "RightParen"
  | TokenKind.leftBrace => "LeftBrace"
  | TokenKind.rightBrace => "RightBrace"
  | TokenKind.comma => "Comma"
  | TokenKind.dot => "Dot"
  | TokenKind.minus => "Minus"
  | TokenKind.plus => "Plus"
  | TokenKind.semicolon => "Semicolon"
  | TokenKind.slash => "Slash"
  | TokenKind.star => "Star"
  | TokenKind.bang => "Bang"
  | TokenKind.bangEqual => "BangEqual"
  | TokenKind.equal => "Equal"
  | TokenKind.equalEqual => "EqualEqual"
  | TokenKind.greater => "Greater"
  | TokenKind.greaterEqual => "GreaterEqual"
  | TokenKind.less => "Less"
  | TokenKind.lessEqual => "LessEqual"
  | TokenKind.identifier s => "Identifier(\"" ++ s ++ "\")"
  | TokenKind.string s => "String(\"" ++ s ++ "\")"
  | TokenKind.number n => "Number(" ++ n.debugStr ++ ")"
  | TokenKind.and => "And"
  | TokenKind.class_ => "Class"
  | TokenKind.else_ => "Else"
  | TokenKind.false => "False"
  | TokenKind.fun_ => "Fun"
  | TokenKind.for_ => "For"
  | TokenKind.if_ => "If"
  | TokenKind.nil => "Nil"
  | TokenKind.or => "Or"
  | TokenKind.print => "Print"
  | TokenKind.ret => "Return"
  | TokenKind.super_ => "Super"
  | TokenKind.this_ => "This"
  | TokenKind.true => "True"
  | TokenKind.var => "Var"
  | TokenKind.while_ => "While"

namespace Compiler

/-- `Compiler::literal`: emit the opcode for the literal keyword in
`previous` (any other token is the source's `unreachable!`). -/
def literal (c : Compiler) : CompRes Unit :=
  match c.previousKind with
  | TokenKind.true => CompRes.ok () (c.emitIns OpCode.true)
  | TokenKind.false => CompRes.ok () (c.emitIns OpCode.false)
  | TokenKind.nil => CompRes.ok () (c.emitIns OpCode.nil)
  | _ => CompRes.panicked "entered unreachable code"

/-- Callback record for the recursive descent: one field per recursive
function of `Compiler` (the source's mutually recursive parse methods).
`mkRec fuel` below ties the knot fuel-indexed: the callbacks inside
`mkRec (n+1)` are those of `mkRec n`, so every recursive call consumes
one unit of fuel, and running out of fuel yields `CompRes.fuelOut`. -/
structure Rec where
  declaration : Compiler → CompRes Bool
  varDecl : Compiler → CompRes Unit
  funDecl : Compiler → CompRes Unit
  paramLoop : Compiler → CompRes Unit
  parseFun : Compiler → CompRes Unit
  compileFun : Compiler → CompRes FunctionObj
  statement : Compiler → CompRes Unit
  returnStmt : Compiler → CompRes Unit
  forStmt : Compiler → CompRes Unit
  parseFor : Compiler → CompRes Unit
  whileStmt : Compiler → CompRes Unit
  ifStmt : Compiler → CompRes Unit
  blockStmt : Compiler → CompRes Unit
  blockLoop : Compiler → CompRes Unit
  printStmt : Compiler → CompRes Unit
  expressionStmt : Compiler → CompRes Unit
  expression : Compiler → CompRes Unit
  parsePrecedence : Precedence → Compiler → CompRes Unit
  infixLoop : Precedence → Compiler → CompRes Unit
  grouping : Compiler → CompRes Unit
  unary : Compiler → CompRes Unit
  variableRef : String → Bool → Compiler → CompRes Unit
  binary : Compiler → CompRes Unit
  orHandler : Compiler → CompRes Unit
  andHandler : Compiler → CompRes Unit
  argumentLoop : Nat → Compiler → CompRes Nat
  argumentList : Compiler → CompRes Nat
  callHandler : Compiler → CompRes Unit
  prefixHandler : TokenKind → Bool → Compiler → CompRes Unit
  infixHandler : TokenKind → Compiler → CompRes Unit
  compileLoop : Compiler → CompRes Unit

/-- `Compiler::declaration` from `src/compiler.rs`: dispatch on the
current token; on an error synchronize, then report it (incrementing
`error_count`); the returned Bool is the source's "was successful". -/
def declarationF (fuel : Nat) (r : Rec) (c : Compiler) : CompRes Bool :=
  let result := match c.currentKind with
    | TokenKind.var => r.varDecl c
    | TokenKind.fun_ => r.funDecl c
    | _ => r.statement c
  match result with
  | CompRes.ok () c => CompRes.ok Bool.true c
  | CompRes.err _e c =>
      match Compiler.synchronize fuel fuel c with
      | Option.none => CompRes.fuelOut
      | some c => CompRes.ok Bool.false c.reportError
  | CompRes.panicked m => CompRes.panicked m
  | CompRes.fuelOut => CompRes.fuelOut

/-- `Compiler::var_decl`. -/
def varDeclF (fuel : Nat) (r : Rec) (c : Compiler) : CompRes Unit :=
  (c.advanceC fuel).bind fun () c =>
  (Compiler.declareVariable fuel c).bind fun idName c =>
  (c.matchCurr fuel TokenKind.equal).bind fun m c =>
  (if m then r.expression c
   else CompRes.ok () (c.emitIns OpCode.nil)).bind fun () c =>
  (c.consume fuel TokenKind.semicolon
    "Expect ';' after variable declaration.").bind fun () c =>
  CompRes.ok () (c.defineVariable idName.1)

/-- `Compiler::fun_decl`: declare and pre-initialize the name (permitting
recursion), compile the body with a nested compiler sharing the parser,
append the compiled function to the table and emit a constant referring
to it.  The source unwraps `self.functions`, which is `None` in nested
compilers — a function declaration inside a function body panics. -/
def funDeclF (fuel : Nat) (r : Rec) (c : Compiler) : CompRes Unit :=
  (c.advanceC fuel).bind fun () c =>
  (Compiler.declareVariable fuel c).bind fun idName c =>
  let c := c.markInitialized
  let child := Compiler.withFun c.parser (FunctionObj.new idName.2 0)
  match r.compileFun child with
  | CompRes.fuelOut => CompRes.fuelOut
  | CompRes.panicked m => CompRes.panicked m
  | CompRes.err e child => CompRes.err e { c with parser := child.parser }
  | CompRes.ok fn child =>
      let c := { c with parser := child.parser }
      match c.functions with
      | Option.none => CompRes.panicked "called Option::unwrap() on a None value"
      | some fs =>
          let c := c.emitConstIns (Value.function fs.length)
          let c := { c with functions := some (fs ++ [fn]) }
          CompRes.ok () (c.defineVariable idName.1)

/-- The parameter loop of `Compiler::parse_fun`.  At 255 parameters the
source builds the "Cannot have more than 255 parameters." error and
discards it (statement position, no `return`), then increments the `u8`
arity anyway — the `% 256` is that wrap-around. -/
def paramLoopF (fuel : Nat) (r : Rec) (c : Compiler) : CompRes Unit :=
  let _dropped :=
    if c.fn.arity = 255 then
      some (c.errorAtCurrent "Cannot have more than 255 parameters.")
    else Option.none
  let c := { c with fn := { c.fn with arity := (c.fn.arity + 1) % 256 } }
  (Compiler.declareVariable fuel c).bind fun idName c =>
  let c := c.defineVariable idName.1
  (c.matchCurr fuel TokenKind.comma).bind fun m c =>
  if m then r.paramLoop c else CompRes.ok () c

/-- `Compiler::parse_fun`: parameter list and body of a function
declaration. -/
def parseFunF (fuel : Nat) (r : Rec) (c : Compiler) : CompRes Unit :=
  let c := { c with scopeDepth := c.scopeDepth + 1 }
  (c.consume fuel TokenKind.leftParen
    "Expect '(' after function name.").bind fun () c =>
  (if !(c.checkCurr TokenKind.rightParen) then r.paramLoop c
   else CompRes.ok () c).bind fun () c =>
  (c.consume fuel TokenKind.rightParen
    "Expect ')' after parameters").bind fun () c =>
  if !(c.checkCurr TokenKind.leftBrace) then
    CompRes.err (c.errorAtCurrent "Expect '\x7b' before function body.") c
  else r.blockStmt c

/-- `Compiler::compile_fun`: run `parse_fun` and hand back the owned
function object. -/
def compileFunF (_fuel : Nat) (r : Rec) (c : Compiler) : CompRes FunctionObj :=
  match r.parseFun c with
  | CompRes.ok () c => CompRes.ok c.fn c
  | CompRes.err e c => CompRes.err e c
  | CompRes.panicked m => CompRes.panicked m
  | CompRes.fuelOut => CompRes.fuelOut

/-- `Compiler::statement`. -/
def statementF (_fuel : Nat) (r : Rec) (c : Compiler) : CompRes Unit :=
  match c.currentKind with
  | TokenKind.print => r.printStmt c
  | TokenKind.leftBrace => r.blockStmt c
  | TokenKind.if_ => r.ifStmt c
  | TokenKind.while_ => r.whileStmt c
  | TokenKind.for_ => r.forStmt c
  | TokenKind.ret => r.returnStmt c
  | _ => r.expressionStmt c

/-- `Compiler::return_stmt`: a bare `return;` emits Nil; a value return
is rejected in the top-level function. -/
def returnStmtF (fuel : Nat) (r : Rec) (c : Compiler) : CompRes Unit :=
  (c.advanceC fuel).bind fun () c =>
  (if c.checkCurr TokenKind.semicolon then
    let c := c.emitIns OpCode.nil
    c.consume fuel TokenKind.semicolon "Expect ';' after return."
  else
    if c.fn.isMain then
      CompRes.err (c.errorAtCurrent "Cannot return value from top-level code.") c
    else
      (r.expression c).bind fun () c =>
      c.consume fuel TokenKind.semicolon
        "Expect ';' after return value.").bind fun () c =>
  CompRes.ok () (c.emitIns OpCode.ret)

/-- `Compiler::for_stmt`: open a scope, parse, and close the scope on
both the success and the error path (the source runs `end_scope` before
propagating the result). -/
def forStmtF (fuel : Nat) (r : Rec) (c : Compiler) : CompRes Unit :=
  (c.advanceC fuel).bind fun () c =>
  let c := { c with scopeDepth := c.scopeDepth + 1 }
  match r.parseFor c with
  | CompRes.ok () c => CompRes.ok () c.endScope
  | CompRes.err e c => CompRes.err e c.endScope
  | CompRes.panicked m => CompRes.panicked m
  | CompRes.fuelOut => CompRes.fuelOut

/-- `Compiler::parse_for` from `src/compiler.rs` (initializer, optional
condition with exit jump, optional increment clause with its jump
shuffle, body, loop back; patch the exit at the end). -/
def parseForF (fuel : Nat) (r : Rec) (c : Compiler) : CompRes Unit :=
  (c.consume fuel TokenKind.leftParen "Expect '(' after 'for'.").bind fun () c =>
  (match c.currentKind with
   | TokenKind.semicolon => CompRes.ok () c
   | TokenKind.var => r.varDecl c
   | _ => r.expressionStmt c).bind fun () c =>
  let loopStart := c.fn.chunk.len
  (c.matchCurr fuel TokenKind.semicolon).bind fun m c =>
  (if m then CompRes.ok Option.none c
   else
     (r.expression c).bind fun () c =>
     (c.consume fuel TokenKind.semicolon
       "Expect ';' after loop condition.").bind fun () c =>
     let (c, exitJump) := c.emitJump (OpCode.jumpIfFalse Option.none)
     CompRes.ok (some exitJump) (c.emitIns OpCode.pop)).bind fun exitJump c =>
  (c.matchCurr fuel TokenKind.rightParen).bind fun m2 c =>
  (if m2 then CompRes.ok loopStart c
   else
     let (c, bodyJump) := c.emitJump (OpCode.jump Option.none)
     let incrementStart := c.fn.chunk.len
     (r.expression c).bind fun () c =>
     let c := c.emitIns OpCode.pop
     (c.consume fuel TokenKind.rightParen
       "Expect ')' after for clauses.").bind fun () c =>
     (c.emitLoop loopStart).bind fun () c =>
     (c.patchJump bodyJump).bind fun () c =>
     CompRes.ok incrementStart c).bind fun loopStart c =>
  (r.statement c).bind fun () c =>
  (c.emitLoop loopStart).bind fun () c =>
  match exitJump with
  | some e =>
      (c.patchJump e).bind fun () c => CompRes.ok () (c.emitIns OpCode.pop)
  | Option.none => CompRes.ok () c

/-- `Compiler::while_stmt`. -/
def whileStmtF (fuel : Nat) (r : Rec) (c : Compiler) : CompRes Unit :=
  (c.advanceC fuel).bind fun () c =>
  let loopStart := c.fn.chunk.len
  (c.consume fuel TokenKind.leftParen "Expect '(' after 'while'.").bind fun () c =>
  (r.expression c).bind fun () c =>
  (c.consume fuel TokenKind.rightParen "Expect ')' after condition.").bind fun () c =>
  let (c, exitJump) := c.emitJump (OpCode.jumpIfFalse Option.none)
  let c := c.emitIns OpCode.pop
  (r.statement c).bind fun () c =>
  (c.emitLoop loopStart).bind fun () c =>
  (c.patchJump exitJump).bind fun () c =>
  CompRes.ok () (c.emitIns OpCode.pop)

/-- `Compiler::if_stmt`. -/
def ifStmtF (fuel : Nat) (r : Rec) (c : Compiler) : CompRes Unit :=
  (c.advanceC fuel).bind fun () c =>
  (c.consume fuel TokenKind.leftParen "Expect '(' after 'if'.").bind fun () c =>
  (r.expression c).bind fun () c =>
  (c.consume fuel TokenKind.rightParen "Expect ')' after condition.").bind fun () c =>
  let (c, thenJump) := c.emitJump (OpCode.jumpIfFalse Option.none)
  let c := c.emitIns OpCode.pop
  (r.statement c).bind fun () c =>
  let (c, elseJump) := c.emitJump (OpCode.jump Option.none)
  (c.patchJump thenJump).bind fun () c =>
  let c := c.emitIns OpCode.pop
  (c.matchCurr fuel TokenKind.else_).bind fun m c =>
  (if m then r.statement c else CompRes.ok () c).bind fun () c =>
  c.patchJump elseJump

/-- `Compiler::block` (named `blockStmt` here): consume `{`, open a
scope, and run the declaration loop. -/
def blockStmtF (fuel : Nat) (r : Rec) (c : Compiler) : CompRes Unit :=
  (c.advanceC fuel).bind fun () c =>
  let c := { c with scopeDepth := c.scopeDepth + 1 }
  r.blockLoop c

/-- The declaration loop of `Compiler::block`: on a failed declaration
close the scope and return (the source's early `return Ok(())`, which
skips consuming `}`); at the loop's end close the scope and consume
`}`. -/
def blockLoopF (fuel : Nat) (r : Rec) (c : Compiler) : CompRes Unit :=
  if !(c.checkCurr TokenKind.rightBrace) && !c.isAtEnd then
    (r.declaration c).bind fun success c =>
      if success then r.blockLoop c
      else CompRes.ok () c.endScope
  else
    let c := c.endScope
    c.consume fuel TokenKind.rightBrace "Expect '\x7d' after block."

/-- `Compiler::print_stmt`. -/
def printStmtF (fuel : Nat) (r : Rec) (c : Compiler) : CompRes Unit :=
  (c.advanceC fuel).bind fun () c =>
  (r.expression c).bind fun () c =>
  (c.consume fuel TokenKind.semicolon "Expect ';' after value.").bind fun () c =>
  CompRes.ok () (c.emitIns OpCode.print)

/-- `Compiler::expression_stmt`. -/
def expressionStmtF (fuel : Nat) (r : Rec) (c : Compiler) : CompRes Unit :=
  (r.expression c).bind fun () c =>
  (c.consume fuel TokenKind.semicolon "Expect ';' after expression.").bind fun () c =>
  CompRes.ok () (c.emitIns OpCode.pop)

/-- `Compiler::expression`. -/
def expressionF (_fuel : Nat) (r : Rec) (c : Compiler) : CompRes Unit :=
  r.parsePrecedence Precedence.assignment c

/-- `Compiler::parse_precedence` from `src/compiler.rs`: advance,
dispatch the prefix handler of `previous`, then fold infix handlers
while the next token binds at least as strongly; finally reject a
dangling `=` when assignment was permitted. -/
def parsePrecedenceF (fuel : Nat) (r : Rec) (precedence : Precedence)
    (c : Compiler) : CompRes Unit :=
  (c.advanceC fuel).bind fun () c =>
  let canAssign := precedence.ble Precedence.assignment
  (r.prefixHandler c.previousKind canAssign c).bind fun () c =>
  (r.infixLoop precedence c).bind fun () c =>
  if canAssign then
    (c.matchCurr fuel TokenKind.equal).bind fun m c =>
      if m then CompRes.err (c.errorAtPrevious "Invalid assignment target.") c
      else CompRes.ok () c
  else CompRes.ok () c

/-- The `while precedence <= current.precedence()` loop of
`Compiler::parse_precedence`. -/
def infixLoopF (fuel : Nat) (r : Rec) (precedence : Precedence)
    (c : Compiler) : CompRes Unit :=
  if precedence.ble c.currentKind.precedence then
    (c.advanceC fuel).bind fun () c =>
    (r.infixHandler c.previousKind c).bind fun () c =>
    r.infixLoop precedence c
  else CompRes.ok () c

/-- `Compiler::grouping`. -/
def groupingF (fuel : Nat) (r : Rec) (c : Compiler) : CompRes Unit :=
  (r.expression c).bind fun () c =>
  c.consume fuel TokenKind.rightParen "Expect ')' after expression"

/-- `Compiler::unary`: parse the operand at Unary precedence, then emit
Not/Negate. -/
def unaryF (_fuel : Nat) (r : Rec) (c : Compiler) : CompRes Unit :=
  let op := c.previousKind
  (r.parsePrecedence Precedence.unary c).bind fun () c =>
  match op with
  | TokenKind.bang => CompRes.ok () (c.emitIns OpCode.not)
  | TokenKind.minus => CompRes.ok () (c.emitIns OpCode.negate)
  | _ => CompRes.panicked "entered unreachable code"

/-- `Compiler::variable` (named `variableRef` here; `variable` is a Lean
command): resolve as local else intern as a global name, then emit the
Get/Set opcode, parsing the assigned expression when `=` follows in
assignment position. -/
def variableRefF (fuel : Nat) (r : Rec) (ident : String) (canAssign : Bool)
    (c : Compiler) : CompRes Unit :=
  let res := match c.resolveLocal ident with
    | some offset => (Bool.true, offset, c)
    | Option.none =>
        let (c, a) := c.writeIdentConstant ident
        (Bool.false, a, c)
  match res with
  | (isLocal, arg, c) =>
      if canAssign then
        (c.matchCurr fuel TokenKind.equal).bind fun m c =>
          if m then
            (r.expression c).bind fun () c =>
            CompRes.ok () (c.emitIns
              (if isLocal then OpCode.setLocal arg else OpCode.setGlobal arg))
          else
            CompRes.ok () (c.emitIns
              (if isLocal then OpCode.getLocal arg else OpCode.getGlobal arg))
      else
        CompRes.ok () (c.emitIns
          (if isLocal then OpCode.getLocal arg else OpCode.getGlobal arg))

/-- `Compiler::binary`: parse the right operand one precedence level
higher, then emit the operator opcodes (`!=`, `<=`, `>=` emit a pair). -/
def binaryF (_fuel : Nat) (r : Rec) (c : Compiler) : CompRes Unit :=
  let operator := c.previousKind
  (r.parsePrecedence operator.precedence.higher c).bind fun () c =>
  match operator with
  | TokenKind.plus => CompRes.ok () (c.emitIns OpCode.add)
  | TokenKind.minus => CompRes.ok () (c.emitIns OpCode.subtract)
  | TokenKind.star => CompRes.ok () (c.emitIns OpCode.multiply)
  | TokenKind.slash => CompRes.ok () (c.emitIns OpCode.divide)
  | TokenKind.bangEqual =>
      CompRes.ok () ((c.emitIns OpCode.equal).emitIns OpCode.not)
  | TokenKind.equalEqual => CompRes.ok () (c.emitIns OpCode.equal)
  | TokenKind.less => CompRes.ok () (c.emitIns OpCode.less)
  | TokenKind.lessEqual =>
      CompRes.ok () ((c.emitIns OpCode.greater).emitIns OpCode.not)
  | TokenKind.greater => CompRes.ok () (c.emitIns OpCode.greater)
  | TokenKind.greaterEqual =>
      CompRes.ok () ((c.emitIns OpCode.less).emitIns OpCode.not)
  | _ => CompRes.panicked "entered unreachable code"

/-- `Compiler::or` (short-circuit via a jump pair). -/
def orHandlerF (_fuel : Nat) (r : Rec) (c : Compiler) : CompRes Unit :=
  let (c, elseJump) := c.emitJump (OpCode.jumpIfFalse Option.none)
  let (c, endJump) := c.emitJump (OpCode.jump Option.none)
  (c.patchJump elseJump).bind fun () c =>
  let c := c.emitIns OpCode.pop
  (r.parsePrecedence Precedence.or c).bind fun () c =>
  c.patchJump endJump

/-- `Compiler::and` (short-circuit via one jump). -/
def andHandlerF (_fuel : Nat) (r : Rec) (c : Compiler) : CompRes Unit :=
  let (c, endJump) := c.emitJump (OpCode.jumpIfFalse Option.none)
  let c := c.emitIns OpCode.pop
  (r.parsePrecedence Precedence.and c).bind fun () c =>
  c.patchJump endJump

/-- The argument loop of `Compiler::argument_list` (errors at the 256th
argument). -/
def argumentLoopF (fuel : Nat) (r : Rec) (argCount : Nat) (c : Compiler)
    : CompRes Nat :=
  (r.expression c).bind fun () c =>
  if argCount = 255 then
    CompRes.err (c.errorAtPrevious "Cannot have more than 255 arguments.") c
  else
    (c.matchCurr fuel TokenKind.comma).bind fun m c =>
    if m then r.argumentLoop (argCount + 1) c
    else CompRes.ok (argCount + 1) c

/-- `Compiler::argument_list`. -/
def argumentListF (fuel : Nat) (r : Rec) (c : Compiler) : CompRes Nat :=
  (if !(c.checkCurr TokenKind.rightParen) then r.argumentLoop 0 c
   else CompRes.ok 0 c).bind fun argCount c =>
  (c.consume fuel TokenKind.rightParen "Expect ')' after arguments.").bind fun () c =>
  CompRes.ok argCount c

/-- `Compiler::call` (named `callHandler` here). -/
def callHandlerF (_fuel : Nat) (r : Rec) (c : Compiler) : CompRes Unit :=
  (r.argumentList c).bind fun argCount c =>
  CompRes.ok () (c.emitIns (OpCode.call argCount))

/-- `Compiler::prefix` dispatch table. -/
def prefixHandlerF (_fuel : Nat) (r : Rec) (kind : TokenKind) (canAssign : Bool)
    (c : Compiler) : CompRes Unit :=
  match kind with
  | TokenKind.leftParen => r.grouping c
  | TokenKind.number val => CompRes.ok () (c.emitConstIns (Value.number val))
  | TokenKind.minus | TokenKind.bang => r.unary c
  | TokenKind.true | TokenKind.false | TokenKind.nil => c.literal
  | TokenKind.string s => CompRes.ok () (c.emitConstIns (Value.string s))
  | TokenKind.identifier ident => r.variableRef ident canAssign c
  | k =>
      CompRes.err
        (c.errorAtPrevious ("Unexpected token '" ++ k.debugStr ++ "'")) c

/-- `Compiler::infix` dispatch table.  Exactly as in the source, `Bang`
dispatches to `binary` (whose match then hits `unreachable!`) and
`BangEqual` is absent, falling through to the do-nothing arm. -/
def infixHandlerF (_fuel : Nat) (r : Rec) (kind : TokenKind) (c : Compiler)
    : CompRes Unit :=
  match kind with
  | TokenKind.minus | TokenKind.plus | TokenKind.slash | TokenKind.star
  | TokenKind.equalEqual | TokenKind.bang | TokenKind.greater
  | TokenKind.greaterEqual | TokenKind.less | TokenKind.lessEqual =>
      r.binary c
  | TokenKind.or => r.orHandler c
  | TokenKind.and => r.andHandler c
  | TokenKind.leftParen => r.callHandler c
  | _ => CompRes.ok () c

/-- The `while !self.is_at_end()` loop of `Compiler::compile` (the
declaration's success flag is ignored there). -/
def compileLoopF (_fuel : Nat) (r : Rec) (c : Compiler) : CompRes Unit :=
  if c.isAtEnd then CompRes.ok () c
  else (r.declaration c).bind fun _ c => r.compileLoop c

/-- The callback record in which every call reports exhausted fuel. -/
def recFuelOut : Rec where
  declaration := fun _ => CompRes.fuelOut
  varDecl := fun _ => CompRes.fuelOut
  funDecl := fun _ => CompRes.fuelOut
  paramLoop := fun _ => CompRes.fuelOut
  parseFun := fun _ => CompRes.fuelOut
  compileFun := fun _ => CompRes.fuelOut
  statement := fun _ => CompRes.fuelOut
  returnStmt := fun _ => CompRes.fuelOut
  forStmt := fun _ => CompRes.fuelOut
  parseFor := fun _ => CompRes.fuelOut
  whileStmt := fun _ => CompRes.fuelOut
  ifStmt := fun _ => CompRes.fuelOut
  blockStmt := fun _ => CompRes.fuelOut
  blockLoop := fun _ => CompRes.fuelOut
  printStmt := fun _ => CompRes.fuelOut
  expressionStmt := fun _ => CompRes.fuelOut
  expression := fun _ => CompRes.fuelOut
  parsePrecedence := fun _ _ => CompRes.fuelOut
  infixLoop := fun _ _ => CompRes.fuelOut
  grouping := fun _ => CompRes.fuelOut
  unary := fun _ => CompRes.fuelOut
  variableRef := fun _ _ _ => CompRes.fuelOut
  binary := fun _ => CompRes.fuelOut
  orHandler := fun _ => CompRes.fuelOut
  andHandler := fun _ => CompRes.fuelOut
  argumentLoop := fun _ _ => CompRes.fuelOut
  argumentList := fun _ => CompRes.fuelOut
  callHandler := fun _ => CompRes.fuelOut
  prefixHandler := fun _ _ _ => CompRes.fuelOut
  infixHandler := fun _ _ => CompRes.fuelOut
  compileLoop := fun _ => CompRes.fuelOut

/-- One level of the recursion: all parse functions, with their recursive
calls going through `r` (the callbacks one fuel unit down). -/
def recStep (fuel : Nat) (r : Rec) : Rec where
  declaration := declarationF fuel r
  varDecl := varDeclF fuel r
  funDecl := funDeclF fuel r
  paramLoop := paramLoopF fuel r
  parseFun := parseFunF fuel r
  compileFun := compileFunF fuel r
  statement := statementF fuel r
  returnStmt := returnStmtF fuel r
  forStmt := forStmtF fuel r
  parseFor := parseForF fuel r
  whileStmt := whileStmtF fuel r
  ifStmt := ifStmtF fuel r
  blockStmt := blockStmtF fuel r
  blockLoop := blockLoopF fuel r
  printStmt := printStmtF fuel r
  expressionStmt := expressionStmtF fuel r
  expression := expressionF fuel r
  parsePrecedence := parsePrecedenceF fuel r
  infixLoop := infixLoopF fuel r
  grouping := groupingF fuel r
  unary := unaryF fuel r
  variableRef := variableRefF fuel r
  binary := binaryF fuel r
  orHandler := orHandlerF fuel r
  andHandler := andHandlerF fuel r
  argumentLoop := argumentLoopF fuel r
  argumentList := argumentListF fuel r
  callHandler := callHandlerF fuel r
  prefixHandler := prefixHandlerF fuel r
  infixHandler := infixHandlerF fuel r
  compileLoop := compileLoopF fuel r

/-- Fuel-indexed recursion for the whole mutually recursive parse family:
at fuel `n + 1` each function may recurse into the family at fuel `n`. -/
def mkRec : Nat → Rec
  | 0 => recFuelOut
  | n + 1 => recStep n (mkRec n)

/-- `Compiler::declaration` at a given fuel. -/
def declaration (fuel : Nat) (c : Compiler) : CompRes Bool :=
  (mkRec fuel).declaration c

/-- `Compiler::compile`'s declaration loop at a given fuel. -/
def compileLoop (fuel : Nat) (c : Compiler) : CompRes Unit :=
  (mkRec fuel).compileLoop c

/-- `Compiler::expression` at a given fuel. -/
def expression (fuel : Nat) (c : Compiler) : CompRes Unit :=
  (mkRec fuel).expression c

/-- `Compiler::parse_precedence` at a given fuel. -/
def parsePrecedence (fuel : Nat) (p : Precedence) (c : Compiler) : CompRes Unit :=
  (mkRec fuel).parsePrecedence p c

/-- `Compiler::compile` from `src/compiler.rs`: prime the lookahead,
compile declarations to EOF, fail if any error was counted, otherwise
return the top-level function and the function table. -/
def compile (fuel : Nat) (c : Compiler) : CompRes (FunctionObj × List FunctionObj) :=
  (c.advanceC fuel).bind fun () c =>
  (compileLoop fuel c).bind fun () c =>
  if c.errorCount ≠ 0 then
    CompRes.err ("\nAborting compilation due to " ++ toString c.errorCount
      ++ " errors") c
  else
    match c.functions with
    | some fs => CompRes.ok (c.fn, fs) c
    | Option.none => CompRes.panicked "called Option::unwrap() on a None value"

end Compiler


/-- Modelled from the spec: `VM::with_code`, called by `interpret` in
`src/lib.rs`, is not present under `src/` (only its caller is).  Per the
spec's startup section the VM starts on the top-level function; the
in-source constructor `VM::new` takes the function table and treats its
LAST entry as the top-level code, so `with_code` appends the compiled
main function to the table and delegates to `VM::new`. -/
def withCode (code : FunctionObj × List FunctionObj) : VMState :=
  VMState.new (code.2 ++ [code.1])

/-- Outcome of `interpret` from `src/lib.rs`: a compile error, a VM
error (runtime error or panic), or success with the accumulated stdout
text. -/
inductive RunResult where
  | compileErr (msg : String)
  | vmErr (e : VMErr) (output : String)
  | ok (output : String)
  | panicked (msg : String)
  | fuelOut
deriving DecidableEq

/-- `interpret` from `src/lib.rs`: build the shared parser and the main
compiler over the source text, compile, then run the result on a fresh
VM.  On a VM error the output printed before the error is reported
alongside it (the source leaves it on stdout). -/
def interpret (fuel : Nat) (source : String) : RunResult :=
  let parser := ParserSt.withSource source
  let c := Compiler.mainCompiler parser
  match Compiler.compile fuel c with
  | CompRes.err e _ => RunResult.compileErr e
  | CompRes.panicked m => RunResult.panicked m
  | CompRes.fuelOut => RunResult.fuelOut
  | CompRes.ok code _ =>
      match VMState.run fuel (withCode code) with
      | Option.none => RunResult.fuelOut
      | some (Except.error (e, vm)) => RunResult.vmErr e vm.output
      | some (Except.ok vm) => RunResult.ok vm.output


/-- Compilation outcome only (the compiled top-level function and the
function table), for stating compile-stage facts. -/
def compileOutcome (fuel : Nat) (source : String)
    : Option (FunctionObj × List FunctionObj) :=
  match Compiler.compile fuel (Compiler.mainCompiler (ParserSt.withSource source)) with
  | CompRes.ok x _ => some x
  | _ => Option.none

/-- Kind of the first token scanned from a source text (if scanning
terminates without error). -/
def scanKind (fuel : Nat) (source : String) : Option TokenKind :=
  match Scanner.scanToken fuel (Scanner.new source) with
  | some (Except.ok (t, _)) => some t.kind
  | _ => Option.none

/-- A VM state whose value stack already holds 256 (= `STACK_MAX`)
entries, about to execute an opcode that pushes. -/
def c1vm : VMState :=
  { frames := [CallFrame.new 0 0]
    stack := List.replicate 256 Value.nil
    functions := [{ name := "<Main>", arity := 0
                    chunk := { code := [OpCode.true], constants := [], lines := [1] } }]
    globals := []
    output := "" }

/-- A VM state whose frame stack already holds 256 (= `FRAME_MAX`)
frames, with a callable zero-arity function on top of the value stack. -/
def c1framesVm : VMState :=
  { frames := List.replicate 256 (CallFrame.new 0 0)
    stack := [Value.function 0]
    functions := [FunctionObj.new "f" 0]
    globals := []
    output := "" }

/-- A chunk whose constant pool already holds 65 536 entries. -/
def c3chunk : Chunk :=
  { code := [], constants := List.replicate 65536 Value.nil, lines := [] }

/-- A chunk with an unpatched forward jump at index 0 followed by 65 536
instructions, so the patch distance is exactly 65 536. -/
def c4chunk : Chunk :=
  { code := OpCode.jump Option.none :: List.replicate 65536 OpCode.pop
    constants := [], lines := [] }

/-- The VM state the spec intends just before `Call(1)` in
`fun f() {} f(1);`: the globals-resolved callee (id 0, arity 0) at stack
depth 1 and the argument `1` on top. -/
def c6vm : VMState :=
  { frames := [CallFrame.new 0 1]
    stack := [Value.function 1, Value.function 0, Value.number (F64.finite 1)]
    functions := [FunctionObj.new "f" 0, FunctionObj.newMain]
    globals := []
    output := "" }


/-! ## Theorems -/

/-- Bind on `Except` applied to a success. -/
theorem exceptBindOk {ε α β : Type} (a : α) (f : α → Except ε β) :
    (Except.ok a : Except ε α) >>= f = f a := rfl

/-- Bind on `Except` applied to a failure. -/
theorem exceptBindErr {ε α β : Type} (e : ε) (f : α → Except ε β) :
    (Except.error e : Except ε α) >>= f = Except.error e := rfl

/-- `patch_jump` on an unpatched forward `Jump`: the operand becomes the
distance reduced mod 2^16, unconditionally. -/
theorem patchJump_jump_eq (ch : Chunk) (i : Nat)
    (h : ch.code[i]? = some (OpCode.jump Option.none)) :
    Compiler.patchJumpChunk ch i
      = some { ch with
          code := ch.code.set i (OpCode.jump (some ((ch.len - i - 1) % 65536))) } := by
  unfold Compiler.patchJumpChunk
  rw [h]

/-- Once the scan position is at or past the end of the source, the
line-comment loop of `skip_whitespace` never finishes: `peek` returns
`None`, which differs from `Some('\n')`, so it advances forever. -/
theorem skipComment_exhausts (fuel : Nat) :
    ∀ s : Scanner, s.source.length ≤ s.current →
      Scanner.skipComment fuel s = Option.none := by
  induction fuel with
  | zero => intro s h; rfl
  | succ n ih =>
      intro s h
      have hp : s.peek = Option.none := List.getElem?_eq_none h
      simp only [Scanner.skipComment, hp]
      simp only [reduceCtorEq, if_false]
      exact ih _ (Nat.le_succ_of_le h)

/-- On the source `"//"` (a line comment not followed by a newline)
`skip_whitespace` runs out of any amount of fuel: the comment loop starts
at the end of input and never terminates. -/
theorem skipWhitespace_comment_eof (fuel : Nat) :
    Scanner.skipWhitespace fuel (Scanner.new "//") = Option.none := by
  cases fuel with
  | zero => rfl
  | succ n =>
      have key : Scanner.skipWhitespace (n + 1) (Scanner.new "//")
          = (match Scanner.skipComment n (⟨"//".data, 0, 2, 1⟩ : Scanner) with
             | Option.none => (Option.none : Option (Except String Scanner))
             | some s3 => Scanner.skipWhitespace n s3) := rfl
      rw [key, skipComment_exhausts n ⟨"//".data, 0, 2, 1⟩ (Nat.le_refl 2)]

/-- `scan_token` cannot finish when `skip_whitespace` does not. -/
theorem scanToken_none_of_skipWhitespace (fuel : Nat) (s : Scanner)
    (h : Scanner.skipWhitespace fuel s = Option.none) :
    Scanner.scanToken fuel s = Option.none := by
  unfold Scanner.scanToken
  rw [h]

/-- Claim C1 (corrected), counterexample: with the value stack already at
its maximum of 256 entries, executing a pushing opcode (`True`) raises no
runtime error — it succeeds and grows the stack to 257 entries.
`push_stack` has no bound check. -/
theorem C1_counterexample :
    c1vm.stack.length = 256 ∧
    VMState.executeIns c1vm
      = Except.ok (Bool.false,
          { c1vm with
              frames := [⟨1, 0, 0⟩]
              stack := List.replicate 256 Value.nil ++ [Value.boolean Bool.true] }) ∧
    (List.replicate 256 Value.nil ++ [Value.boolean Bool.true]).length = 257 := by
  refine ⟨?_, rfl, ?_⟩
  · rw [show c1vm.stack = List.replicate 256 Value.nil from rfl, List.length_replicate]
  · rw [List.length_append, List.length_replicate]
    norm_num

/-- Claim C1 (corrected), amended: only the frame-stack bound raises a
runtime error — `Call` on a matching-arity function with 256 frames
already stacked fails with "Stack overflow" (a returned runtime error,
not a process abort) — while `push_stack` appends unconditionally, with
no bound and no error path. -/
theorem C1_amended (vm : VMState) (n fid : Nat) (f : FunctionObj)
    (hpeek : vm.peekStack n = some (Value.function fid))
    (hfun : vm.functions[fid]? = some f)
    (harity : f.arity = n)
    (hframes : vm.frames.length = 256) :
    (∀ (w : VMState) (u : Value), (VMState.pushStack w u).stack = w.stack ++ [u]) ∧
    vm.call n = Except.error (VMErr.runtime "Stack overflow") := by
  refine ⟨fun w u => rfl, ?_⟩
  simp [VMState.call, VMState.peekStackUnwrapped, hpeek, hfun, harity, hframes,
    VMState.FRAME_MAX, exceptBindOk]

/-- Witness for C1's amended theorem at a concrete VM with 256 frames. -/
theorem C1_witness :
    (∀ (w : VMState) (u : Value), (VMState.pushStack w u).stack = w.stack ++ [u]) ∧
    c1framesVm.call 0 = Except.error (VMErr.runtime "Stack overflow") :=
  C1_amended c1framesVm 0 0 (FunctionObj.new "f" 0) rfl rfl rfl
    (by rw [show c1framesVm.frames = List.replicate 256 (CallFrame.new 0 0) from rfl,
            List.length_replicate])

/-- Claim C2 (code bug): `scan_token` does NOT terminate on every source.
On `"//"` — a line comment not followed by a newline — the comment loop
in `skip_whitespace` never finishes (no amount of fuel completes it),
because its exit test compares `peek` only against `Some('\n')` and
`peek` is `None` forever at end of input.  With the newline present the
scan terminates with `Eof`, as the claim expects for every source. -/
theorem C2_theorem :
    (∀ fuel : Nat, Scanner.scanToken fuel (Scanner.new "//") = Option.none) ∧
    scanKind 50 "//\n" = some TokenKind.eof :=
  ⟨fun fuel =>
    scanToken_none_of_skipWhitespace fuel _ (skipWhitespace_comment_eof fuel), rfl⟩

/-- What `add_const` does, for any chunk: append to the pool and return
the old pool size reduced mod 2^16 (the `as u16` cast). -/
theorem addConst_spec (c : Chunk) (v : Value) :
    (c.addConst v).1.constants = c.constants ++ [v] ∧
    (c.addConst v).2 = c.constants.length % 65536 := by
  refine ⟨rfl, ?_⟩
  simp [Chunk.addConst]

/-- Claim C3 (corrected), counterexample: with 65 536 constants already
in the pool, `add_const` does not fail — it appends (pool grows to
65 537) and returns the wrapped index 0 (the `as u16` cast of 65 536). -/
theorem C3_counterexample :
    (c3chunk.addConst Value.nil).2 = 0 ∧
    (c3chunk.addConst Value.nil).1.constants.length = 65537 := by
  have hlen : c3chunk.constants.length = 65536 := by
    rw [show c3chunk.constants = List.replicate 65536 Value.nil from rfl,
        List.length_replicate]
  constructor
  · rw [(addConst_spec c3chunk Value.nil).2, hlen]
  · rw [(addConst_spec c3chunk Value.nil).1, List.length_append, hlen]
    norm_num

/-- Claim C3 (corrected), amended: `add_const` always appends the value
and returns `(pool size before the append) mod 2^16`; it has no failure
path (no `TooManyConstants`), so from the 65 537th constant on the
returned 16-bit index silently wraps. -/
theorem C3_amended (c : Chunk) (v : Value) :
    (c.addConst v).1.constants = c.constants ++ [v] ∧
    (c.addConst v).1.code = c.code ∧
    (c.addConst v).1.lines = c.lines ∧
    (c.addConst v).2 = c.constants.length % 65536 := by
  refine ⟨rfl, rfl, rfl, ?_⟩
  simp [Chunk.addConst]

/-- Claim C4 (corrected), counterexample: patching a jump whose distance
is exactly 65 536 does not fail — the operand is silently truncated to
0 (the `as u16` cast), so the jump goes nowhere. -/
theorem C4_counterexample :
    c4chunk.len - 0 - 1 = 65536 ∧
    Compiler.patchJumpChunk c4chunk 0
      = some { c4chunk with
          code := OpCode.jump (some 0) :: List.replicate 65536 OpCode.pop } := by
  have hcode : c4chunk.code = OpCode.jump Option.none :: List.replicate 65536 OpCode.pop := rfl
  have hlen : c4chunk.len = 65537 := by
    show c4chunk.code.length = 65537
    rw [hcode, List.length_cons, List.length_replicate]
  have h0 : c4chunk.code[0]? = some (OpCode.jump Option.none) := by
    rw [hcode, List.getElem?_cons_zero]
  refine ⟨by rw [hlen], ?_⟩
  rw [patchJump_jump_eq c4chunk 0 h0, hlen, hcode, List.set_cons_zero]

/-- Claim C4 (corrected), amended: `patch_jump` rewrites the unresolved
operand at `index` to `(len - index - 1) as u16` unconditionally — it
never fails with `JumpTooFar`, and for distances of 65 536 or more the
stored offset silently differs from the true distance.  The analogous
backward check does hold for `Loop`: `emit_loop` errors with "Loop body
too large." exactly when `len - loop_start + 1` exceeds 65 535. -/
theorem C4_amended (ch : Chunk) (i : Nat) (c : Compiler) (ls : Nat)
    (hjump : ch.code[i]? = some (OpCode.jump Option.none)) :
    Compiler.patchJumpChunk ch i
      = some { ch with
          code := ch.code.set i (OpCode.jump (some ((ch.len - i - 1) % 65536))) } ∧
    (ch.len - i - 1 ≥ 65536 → (ch.len - i - 1) % 65536 ≠ ch.len - i - 1) ∧
    (c.fn.chunk.len - ls + 1 > 65535 →
      Compiler.emitLoop c ls = CompRes.err (c.errorAtPrevious "Loop body too large.") c) ∧
    (c.fn.chunk.len - ls + 1 ≤ 65535 →
      Compiler.emitLoop c ls
        = CompRes.ok () (c.emitIns (OpCode.loop (c.fn.chunk.len - ls + 1)))) := by
  refine ⟨patchJump_jump_eq ch i hjump, ?_, ?_, ?_⟩
  · intro h
    have := Nat.mod_lt (ch.len - i - 1) (show 0 < 65536 by norm_num)
    omega
  · intro h
    simp [Compiler.emitLoop, h]
  · intro h
    have hnot : ¬ (c.fn.chunk.len - ls + 1 > 65535) := by omega
    simp [Compiler.emitLoop, hnot]

/-- Witness for C4's amended theorem at the concrete 65 536-distance
chunk. -/
theorem C4_witness :
    Compiler.patchJumpChunk c4chunk 0
      = some { c4chunk with
          code := c4chunk.code.set 0
            (OpCode.jump (some ((c4chunk.len - 0 - 1) % 65536))) } :=
  (C4_amended c4chunk 0 (Compiler.mainCompiler (ParserSt.withSource "")) 0
    (by rw [show c4chunk.code = OpCode.jump Option.none :: List.replicate 65536 OpCode.pop
              from rfl,
            List.getElem?_cons_zero])).1

/-- Claim C5 (code bug): a reference to a local whose depth is still
`None` is silently compiled.  On `{ var a = a; }` the compiler succeeds
with no error counted, emitting `GetLocal 1` for the self-reference
(`resolve_local` builds the "Cannot read local variable in its own
initializer." error and discards it); running the program then aborts
with an out-of-bounds stack read instead of the promised compile
failure. -/
theorem C5_theorem :
    compileOutcome 60 "\x7b var a = a; \x7d"
      = some (⟨"<Main>", 0, ⟨[OpCode.getLocal 1, OpCode.pop], [], [1, 1]⟩⟩, []) ∧
    interpret 60 "\x7b var a = a; \x7d"
      = RunResult.vmErr (VMErr.panicked "index out of bounds") "" := by
  constructor
  · with_unfolding_all rfl
  · with_unfolding_all rfl

/-- Claim C6 (code bug): `fun f() {} f(1);` never reaches `Call` at all.
`TokenKind::precedence` has no `LeftParen` arm (it falls through to
`Precedence::None`), so the infix call handler is unreachable and the
program fails to compile.  Executing `Call` directly on the VM state the
spec intends does raise the arity error, but its message carries an
" in call to f()" suffix the claim omits. -/
theorem C6_theorem :
    interpret 60 "fun f() \x7b\x7d f(1);"
      = RunResult.compileErr "\nAborting compilation due to 1 errors" ∧
    TokenKind.leftParen.precedence = Precedence.none ∧
    c6vm.call 1
      = Except.error (VMErr.runtime "Expected 0 arguments but got 1 in call to f()") ∧
    "Expected 0 arguments but got 1 in call to f()" ≠ "Expected 0 arguments but got 1" := by
  refine ⟨by with_unfolding_all rfl, rfl, rfl, by decide⟩

/-- Claim C7 (confirmed): compiling and running `print 1 + 2 * 3;`
writes exactly `"7\n"`; the emitted code evaluates the multiplication
first (`Multiply` precedes `Add`), i.e. it computes `1 + (2 * 3)`. -/
theorem C7_theorem :
    interpret 60 "print 1 + 2 * 3;" = RunResult.ok "7\n" ∧
    compileOutcome 60 "print 1 + 2 * 3;"
      = some (⟨"<Main>", 0,
          ⟨[OpCode.constant 0, OpCode.constant 1, OpCode.constant 2,
            OpCode.multiply, OpCode.add, OpCode.print],
           [Value.number (F64.finite 1), Value.number (F64.finite 2),
            Value.number (F64.finite 3)],
           [1, 1, 1, 1, 1, 1]⟩⟩, []) := by
  constructor
  · with_unfolding_all rfl
  · with_unfolding_all rfl

/-- Claim C8 (confirmed): `Value` equality compares strings by contents,
makes every cross-variant pair unequal (in particular `nil == false` is
false), compares functions by id, and is IEEE-754 on numbers, so
`Number(NaN) != Number(NaN)`. -/
theorem C8_theorem :
    (∀ s1 s2 : String,
      Value.valueEq (Value.string s1) (Value.string s2) = (s1 == s2)) ∧
    (∀ a b : Value, a.tag ≠ b.tag → Value.valueEq a b = Bool.false) ∧
    (∀ i j : Nat, Value.valueEq (Value.function i) (Value.function j) = (i == j)) ∧
    Value.valueEq (Value.number F64.nan) (Value.number F64.nan) = Bool.false ∧
    Value.valueEq Value.nil (Value.boolean Bool.false) = Bool.false := by
  refine ⟨fun s1 s2 => rfl, ?_, fun i j => rfl, rfl, rfl⟩
  intro a b h
  cases a <;> cases b <;> first | rfl | simp [Value.tag] at h

/-- Witness for C8 at concrete values. -/
theorem C8_witness :
    Value.valueEq (Value.string "ab") (Value.string "ab") = ("ab" == "ab") ∧
    Value.valueEq (Value.number (F64.finite 1)) Value.nil = Bool.false :=
  ⟨C8_theorem.1 "ab" "ab",
   C8_theorem.2.1 (Value.number (F64.finite 1)) Value.nil (by decide)⟩

/-- Claim C9 (confirmed): the `Not` opcode's pop-and-dispatch replaces a
Boolean top `b` with `!b` and a Nil top with `true`, and raises a
runtime error for every other variant — no general truthiness. -/
theorem C9_theorem (vm : VMState) (l : List Value) (v : Value)
    (h : vm.stack = l ++ [v]) :
    (∀ b, v = Value.boolean b →
      vm.notOp = Except.ok (VMState.pushStack { vm with stack := l }
        (Value.boolean (!b)))) ∧
    (v = Value.nil →
      vm.notOp = Except.ok (VMState.pushStack { vm with stack := l }
        (Value.boolean Bool.true))) ∧
    ((∀ b, v ≠ Value.boolean b) → v ≠ Value.nil →
      vm.notOp = Except.error (VMErr.runtime
        ("Cannot perform '!' operation on " ++ v.display))) := by
  have hpop : vm.popStack = Except.ok (v, { vm with stack := l }) := by
    simp [VMState.popStack, h, List.getLast?_concat, List.dropLast_concat]
  refine ⟨?_, ?_, ?_⟩
  · intro b hb; subst hb; simp [VMState.notOp, hpop, exceptBindOk]
  · intro hb; subst hb; simp [VMState.notOp, hpop, exceptBindOk]
  · intro hb hn
    cases v with
    | boolean b => exact absurd rfl (hb b)
    | nil => exact absurd rfl hn
    | number x => simp [VMState.notOp, hpop, exceptBindOk]
    | string s => simp [VMState.notOp, hpop, exceptBindOk]
    | function i => simp [VMState.notOp, hpop, exceptBindOk]

/-- Witness for C9: `Not` on a Boolean `false` top yields `true`. -/
theorem C9_witness :
    (⟨[], [Value.boolean Bool.false], [], [], ""⟩ : VMState).notOp
      = Except.ok (VMState.pushStack (⟨[], [], [], [], ""⟩ : VMState)
          (Value.boolean (!Bool.false))) :=
  (C9_theorem ⟨[], [Value.boolean Bool.false], [], [], ""⟩ []
    (Value.boolean Bool.false) rfl).1 Bool.false rfl

/-- Claim C10 (confirmed): `Divide` errors exactly when one of the two
popped operands is not a Number (the right operand is popped and checked
first); on two Numbers it never errors, and division by zero follows
IEEE-754 — a signed infinity for a nonzero dividend and NaN for 0/0. -/
theorem C10_theorem (vm : VMState) (l : List Value) (a b : Value)
    (h : vm.stack = l ++ [a, b]) :
    (∀ x y, a = Value.number x → b = Value.number y →
      vm.binary OpCode.divide
        = Except.ok (VMState.pushStack { vm with stack := l }
            (Value.number (x.div y)))) ∧
    ((∀ y, b ≠ Value.number y) →
      vm.binary OpCode.divide
        = Except.error (VMErr.runtime ("Expected a number but got " ++ b.display))) ∧
    ((∃ y, b = Value.number y) → (∀ x, a ≠ Value.number x) →
      vm.binary OpCode.divide
        = Except.error (VMErr.runtime ("Expected a number but got " ++ a.display))) ∧
    (∀ q : ℚ, q ≠ 0 → F64.div (F64.finite q) (F64.finite 0) = F64.inf (decide (q < 0))) ∧
    F64.div (F64.finite 0) (F64.finite 0) = F64.nan := by
  have h2 : vm.stack = (l ++ [a]) ++ [b] := by simp [h]
  have hpop1 : vm.popStack = Except.ok (b, { vm with stack := l ++ [a] }) := by
    simp [VMState.popStack, h2, List.getLast?_concat, List.dropLast_concat]
  have hpop2 : ({ vm with stack := l ++ [a] } : VMState).popStack
      = Except.ok (a, { vm with stack := l }) := by
    simp [VMState.popStack, List.getLast?_concat, List.dropLast_concat]
  refine ⟨?_, ?_, ?_, ?_, rfl⟩
  · intro x y hx hy; subst hx; subst hy
    simp [VMState.binary, VMState.popNumber, hpop1, hpop2, exceptBindOk]
  · intro hb
    cases b with
    | number y => exact absurd rfl (hb y)
    | boolean c =>
        simp [VMState.binary, VMState.popNumber, hpop1, exceptBindOk, exceptBindErr]
    | nil => simp [VMState.binary, VMState.popNumber, hpop1, exceptBindOk, exceptBindErr]
    | string s =>
        simp [VMState.binary, VMState.popNumber, hpop1, exceptBindOk, exceptBindErr]
    | function i =>
        simp [VMState.binary, VMState.popNumber, hpop1, exceptBindOk, exceptBindErr]
  · intro hby hax
    obtain ⟨y, hy⟩ := hby
    subst hy
    cases a with
    | number x => exact absurd rfl (hax x)
    | boolean c =>
        simp [VMState.binary, VMState.popNumber, hpop1, hpop2, exceptBindOk, exceptBindErr]
    | nil =>
        simp [VMState.binary, VMState.popNumber, hpop1, hpop2, exceptBindOk, exceptBindErr]
    | string s =>
        simp [VMState.binary, VMState.popNumber, hpop1, hpop2, exceptBindOk, exceptBindErr]
    | function i =>
        simp [VMState.binary, VMState.popNumber, hpop1, hpop2, exceptBindOk, exceptBindErr]
  · intro q hq
    simp [F64.div, hq]

/-- Witness for C10: `1 / 0` succeeds and pushes the IEEE-754 quotient. -/
theorem C10_witness :
    (⟨[], [Value.number (F64.finite 1), Value.number (F64.finite 0)], [], [], ""⟩
        : VMState).binary OpCode.divide
      = Except.ok (VMState.pushStack (⟨[], [], [], [], ""⟩ : VMState)
          (Value.number (F64.div (F64.finite 1) (F64.finite 0)))) :=
  (C10_theorem
    ⟨[], [Value.number (F64.finite 1), Value.number (F64.finite 0)], [], [], ""⟩
    [] (Value.number (F64.finite 1)) (Value.number (F64.finite 0)) rfl).1
    (F64.finite 1) (F64.finite 0) rfl rfl

end RLox
